import Mathlib

/-!
# GrTexture (src/gpu/ganesh/GrTexture.cpp)

A shallow embedding of the texture resource of the Ganesh backend: the scratch-key
builder, the mipmap status state machine with its diagnostic check, the constructor
and the backend-texture stealing protocol, followed by the properties proved about
them.

Conventions.
* `int` values are `Int`; a value stored into a `uint32_t` is reduced modulo `2^32`
  (`toU32`), `uint32_t` shifts wrap modulo `2^32` (`shl32`), a `uint64_t` is a `Nat`
  reduced modulo `2^64`.
* `skDebug` is the build flag `SK_DEBUG`. With `skDebug = true`, `SkASSERT` is live and
  a failing assertion aborts: the function returns `none`. With `skDebug = false` the
  assertion and the `SkDEBUGCODE` statements are compiled out.
* State reached through pointers (`this->getContext()`, the resource cache) is passed
  to the functions explicitly.
-/

namespace GrTextureModel

/-! ## Machine integers and enums -/

/-- Conversion of an `int` to `uint32_t` (`static_cast<uint32_t>` or a store into a
32-bit key word). -/
def toU32 (x : Int) : Nat := (x % 4294967296).toNat

/-- Left shift on `uint32_t`. -/
def shl32 (x n : Nat) : Nat := (x <<< n) % 4294967296

/-- Modelled from the spec: the mipmap-requested flag, the bool-backed enum class
GrMipmapped of GrTypes.h, which is not among the sources. -/
inductive GrMipmapped where
  | kNo
  | kYes
  deriving DecidableEq, Repr

/-- Modelled from the spec: the protection flag, the bool-backed enum class GrProtected
of GrTypes.h, which is not among the sources. -/
inductive GrProtected where
  | kNo
  | kYes
  deriving DecidableEq, Repr

/-- Modelled from the spec: the renderable flag, the bool-backed enum class GrRenderable
of GrTypes.h, which is not among the sources. -/
inductive GrRenderable where
  | kNo
  | kYes
  deriving DecidableEq, Repr

/-- The cast `static_cast<uint32_t>(mipmapped)`. -/
def GrMipmapped.toU32 : GrMipmapped → Nat
  | .kNo => 0
  | .kYes => 1

/-- The cast `static_cast<uint32_t>(isProtected)`. -/
def GrProtected.toU32 : GrProtected → Nat
  | .kNo => 0
  | .kYes => 1

/-- The cast `static_cast<uint32_t>(renderable)`. -/
def GrRenderable.toU32 : GrRenderable → Nat
  | .kNo => 0
  | .kYes => 1

/-- Modelled from the spec: dimensions (width, height), the type SkISize of SkSize.h,
which is not among the sources; its two fields are `int32_t`. -/
structure SkISize where
  fWidth : Int
  fHeight : Int
  deriving DecidableEq, Repr

/-- Modelled from the spec: `SkISize::isEmpty` (SkSize.h, not among the sources);
dimensions are non-empty when both width and height are positive. -/
def SkISize.isEmpty (d : SkISize) : Bool :=
  decide (d.fWidth ≤ 0) || decide (d.fHeight ≤ 0)

/-! ## Scratch keys -/

/-- Modelled from the spec: the scratch-key value, a resource-type tag plus 32-bit
words (skgpu::ScratchKey, not among the sources): the resource type (the key's domain, `0` being the invalid
domain of a reset key) and the 32-bit data words written through the builder. -/
structure ScratchKey where
  resourceType : Nat
  data : List Nat
  deriving DecidableEq, Repr

/-- Modelled from the spec: the key validity query, `ResourceKey::isValid` (not among
the sources): the domain is not the invalid domain. -/
def ScratchKey.isValid (k : ScratchKey) : Bool := decide (k.resourceType ≠ 0)

/-- Modelled from the spec: the backend format, an opaque capability-negotiated value
(GrBackendFormat, not among the sources). -/
abbrev GrBackendFormat := Nat

/-- Modelled from the spec: the capability provider (GrCaps, not among the sources),
with `isFormatCompressed(format) -> bool` and the 64-bit format fingerprint
`computeFormatKey`, a `uint64_t`. -/
structure GrCaps where
  isFormatCompressed : GrBackendFormat → Bool
  computeFormatKey : GrBackendFormat → Nat

/-- The seven `SkASSERT`s at the head of `GrTexture::ComputeScratchKey`. -/
def ComputeScratchKey_asserts (dimensions : SkISize) (renderable : GrRenderable)
    (sampleCnt : Int) (mipmapped : GrMipmapped) (isProtected : GrProtected) : Bool :=
  !dimensions.isEmpty
  && decide (sampleCnt > 0)
  && (decide (1 = sampleCnt) || decide (renderable = GrRenderable.kYes))
  && decide (mipmapped.toU32 ≤ 1)
  && decide (isProtected.toU32 ≤ 1)
  && decide (renderable.toU32 ≤ 1)
  && decide (toU32 sampleCnt < 536870912)

/-- The function `GrTexture::ComputeScratchKey`. `kType` is the function-local static resource type,
generated once per process. The key passed in is overwritten by the builder. -/
def ComputeScratchKey (skDebug : Bool) (kType : Nat) (caps : GrCaps)
    (format : GrBackendFormat) (dimensions : SkISize) (renderable : GrRenderable)
    (sampleCnt : Int) (mipmapped : GrMipmapped) (isProtected : GrProtected)
    (_key : ScratchKey) : Option ScratchKey :=
  if skDebug && !ComputeScratchKey_asserts dimensions renderable sampleCnt mipmapped isProtected
  then none
  else
    let formatKey := caps.computeFormatKey format % 18446744073709551616
    some { resourceType := kType
           data := [ toU32 dimensions.fWidth
                   , toU32 dimensions.fHeight
                   , (formatKey &&& 0xFFFFFFFF) % 4294967296
                   , ((formatKey >>> 32) &&& 0xFFFFFFFF) % 4294967296
                   , shl32 mipmapped.toU32 0
                     ||| shl32 isProtected.toU32 1
                     ||| shl32 renderable.toU32 2
                     ||| shl32 (toU32 sampleCnt) 3 ] }

/-- The caller contract of `ComputeScratchKey` on values of its C++ parameter types:
non-empty `int32_t` dimensions, a 64-bit format key, `0 < sampleCnt < 2^29`, and
`sampleCnt = 1` unless renderable. -/
@[reducible]
def ValidScratchArgs (dimensions : SkISize) (formatKey : Nat) (renderable : GrRenderable)
    (sampleCnt : Int) : Prop :=
  0 < dimensions.fWidth ∧ dimensions.fWidth < 2147483648
  ∧ 0 < dimensions.fHeight ∧ dimensions.fHeight < 2147483648
  ∧ formatKey < 18446744073709551616
  ∧ 0 < sampleCnt ∧ sampleCnt < 536870912
  ∧ (sampleCnt = 1 ∨ renderable = GrRenderable.kYes)

/-! ## The texture resource -/

/-- Modelled from the spec: the mipmap status, one of Unallocated, Dirty, Valid (enum
class GrMipmapStatus of GrTypesPriv.h, not among the sources). -/
inductive GrMipmapStatus where
  | kNotAllocated
  | kDirty
  | kValid
  deriving DecidableEq, Repr

/-- Modelled from the spec: the texture-shape category, 2D, rectangle or external (enum
class GrTextureType of GrTypesPriv.h, not among the sources). -/
inductive GrTextureType where
  | kNone
  | k2D
  | kRectangle
  | kExternal
  deriving DecidableEq, Repr

/-- Modelled from the spec: the source of the flush epoch, the drawing manager
(GrDrawingManager, not among the sources), reduced to the two queries the texture
makes on it, `flushNumber()` and `isFlushing()`. -/
structure GrDrawingManager where
  flushNumber : Int
  isFlushing : Bool
  deriving DecidableEq, Repr

/-- Modelled from the spec: the rendering context that created the resource
(GrDirectContext, not among the sources), reduced to what the texture reaches
through a non-null context pointer. -/
structure GrDirectContext where
  drawingManager : GrDrawingManager
  deriving DecidableEq, Repr

/-- Modelled from the spec: the optional render-target capability, carrying a sample
count (GrRenderTarget, not among the sources). -/
structure GrRenderTarget where
  fSampleCnt : Int
  deriving DecidableEq, Repr

/-- Modelled from the spec: the sample count of the render-target capability,
`GrRenderTarget::numSamples` (not among the sources). -/
def GrRenderTarget.numSamples (rt : GrRenderTarget) : Int := rt.fSampleCnt

/-- Modelled from the spec: the stable identity key (skgpu::UniqueKey, not among the
sources): domain (`0` is the invalid domain of a reset key) and data. -/
structure UniqueKey where
  domain : Nat
  data : List Nat
  deriving DecidableEq, Repr

/-- Modelled from the spec: the key validity query for an identity key. -/
def UniqueKey.isValid (k : UniqueKey) : Bool := decide (k.domain ≠ 0)

/-- Modelled from the spec: the texture resource of the data model (GrTexture.h,
GrSurface.h and GrGpuResource.h are not among the sources). The state of a
`GrTexture` object: the members it inherits from `GrGpuResource`
and `GrSurface`, the result of its virtual `asRenderTarget()` and `backendFormat()`,
and its own members. The four `fMipmapDirty...`/`fMipmapRegen...` members exist in
`SK_DEBUG` builds only; the other builds never read or write them. -/
structure GrTexture where
  uniqueID : Nat
  fRefCnt : Nat
  fUniqueKey : UniqueKey
  fScratchKey : ScratchKey
  fDimensions : SkISize
  fIsProtected : GrProtected
  fReadOnly : Bool
  backendFormat : GrBackendFormat
  asRenderTarget : Option GrRenderTarget
  fTextureType : GrTextureType
  fMipmapStatus : GrMipmapStatus
  fMaxMipmapLevel : Int
  fMipmapDirtyReason : String
  fMipmapRegenFailureReason : String
  fMipmapDirtyFlushNum : Int
  fMipmapDirtyWasFlushing : Bool
  deriving DecidableEq, Repr

/-- Modelled from the spec: the getter `GrSurface::dimensions` (not among the sources). -/
def GrTexture.dimensions (t : GrTexture) : SkISize := t.fDimensions

/-- Modelled from the spec: the getter `GrSurface::isProtected` of the protection flag
(not among the sources). -/
def GrTexture.isProtected (t : GrTexture) : Bool := decide (t.fIsProtected = GrProtected.kYes)

/-- Modelled from the spec: the getter `GrSurface::readOnly` of the read-only flag (not
among the sources). -/
def GrTexture.readOnly (t : GrTexture) : Bool := t.fReadOnly

/-- Modelled from the spec: `GrTexture::mipmapped` (GrTexture.h, not among the
sources): mip storage exists unless the status is Unallocated. -/
def GrTexture.mipmapped (t : GrTexture) : GrMipmapped :=
  if t.fMipmapStatus ≠ GrMipmapStatus.kNotAllocated then GrMipmapped.kYes else GrMipmapped.kNo

/-- Modelled from the spec: `GrTexture::mipmapsAreDirty` (GrTexture.h, not among the
sources): the mip chain content does not match the base level, the status is not
Valid. -/
def GrTexture.mipmapsAreDirty (t : GrTexture) : Bool :=
  decide (t.fMipmapStatus ≠ GrMipmapStatus.kValid)

/-- Modelled from the spec: the uniqueness check `unique()` (GrGpuResource.h, not among
the sources): the caller's reference is the only extant reference. -/
def GrTexture.unique (t : GrTexture) : Bool := decide (t.fRefCnt = 1)

/-- Modelled from the spec: the getter `GrGpuResource::getUniqueKey` (not among the
sources). -/
def GrTexture.getUniqueKey (t : GrTexture) : UniqueKey := t.fUniqueKey

/-- Modelled from the spec: the getter `resourcePriv().getScratchKey()` (not among the
sources). -/
def GrTexture.getScratchKey (t : GrTexture) : ScratchKey := t.fScratchKey

/-! ## Mipmap status -/

/-- The function `GrTexture::markMipmapsDirty`. `context` is the value of `this->getContext()` at the
call, `none` for a null pointer. -/
def GrTexture.markMipmapsDirty (skDebug : Bool) (context : Option GrDirectContext)
    (reason : String) (t : GrTexture) : GrTexture :=
  if GrMipmapStatus.kValid = t.fMipmapStatus then
    let t1 := { t with fMipmapStatus := GrMipmapStatus.kDirty }
    if skDebug then
      let t2 := { t1 with fMipmapDirtyReason := reason }
      match context with
      | some ctx =>
        { t2 with fMipmapDirtyFlushNum := ctx.drawingManager.flushNumber
                  fMipmapDirtyWasFlushing := ctx.drawingManager.isFlushing }
      | none => t2
    else t1
  else t

/-- The function `GrTexture::markMipmapsClean`. In an `SK_DEBUG` build the assertion aborts on a
`kNotAllocated` texture. -/
def GrTexture.markMipmapsClean (skDebug : Bool) (t : GrTexture) : Option GrTexture :=
  if skDebug && !decide (GrMipmapStatus.kNotAllocated ≠ t.fMipmapStatus) then none
  else
    let t1 := if skDebug then { t with fMipmapRegenFailureReason := "did not fail" } else t
    some { t1 with fMipmapStatus := GrMipmapStatus.kValid }

/-- One call of the clean/dirty interface, with the arguments of the call. -/
inductive MipmapOp where
  | markDirty (context : Option GrDirectContext) (reason : String)
  | markClean
  deriving DecidableEq, Repr

/-- Perform one call; `none` when an assertion aborts. -/
def MipmapOp.apply (skDebug : Bool) : MipmapOp → GrTexture → Option GrTexture
  | .markDirty context reason, t => some (t.markMipmapsDirty skDebug context reason)
  | .markClean, t => t.markMipmapsClean skDebug

/-- Perform a sequence of calls from left to right; `none` as soon as one aborts. -/
def runOps (skDebug : Bool) : List MipmapOp → GrTexture → Option GrTexture
  | [], t => some t
  | op :: ops, t =>
    match op.apply skDebug t with
    | some t1 => runOps skDebug ops t1
    | none => none

/-! ## Scratch key of a texture -/

/-- The function `GrTexture::computeScratchKey`. `caps` is `*this->getGpu()->caps()`, `key` the
output parameter; the result is the key after the call, `none` when an assertion
aborts. -/
def GrTexture.computeScratchKey (skDebug : Bool) (kType : Nat) (caps : GrCaps)
    (t : GrTexture) (key : ScratchKey) : Option ScratchKey :=
  if !caps.isFormatCompressed t.backendFormat then
    let sampleCount : Int := 1
    let renderable := GrRenderable.kNo
    let (sampleCount, renderable) :=
      match t.asRenderTarget with
      | some rt => (rt.numSamples, GrRenderable.kYes)
      | none => (sampleCount, renderable)
    let isProtected := if t.isProtected then GrProtected.kYes else GrProtected.kNo
    ComputeScratchKey skDebug kType caps t.backendFormat t.dimensions renderable sampleCount
      t.mipmapped isProtected key
  else some key

/-! ## Resource cache and stealing -/

/-- Modelled from the spec: the resource cache (GrResourceCache is not among the
sources). It holds resources, counted by `getResourceCount`, and indexes them by an
optional identity key and an optional fingerprint key. -/
structure GrResourceCache where
  fResources : List Nat
  fUniqueHash : List (UniqueKey × Nat)
  fScratchMap : List (ScratchKey × Nat)
  deriving DecidableEq, Repr

/-- Modelled from the spec: `resourceCount() -> int` of the resource cache. -/
def GrResourceCache.getResourceCount (c : GrResourceCache) : Nat := c.fResources.length

/-- Modelled from the spec: `removeIdentityKey(resource)` (the texture's
`resourcePriv().removeUniqueKey()`): the identity key leaves the cache index and the
resource; removing an absent key is a no-op. -/
def removeUniqueKey (t : GrTexture) (c : GrResourceCache) : GrTexture × GrResourceCache :=
  ({ t with fUniqueKey := { domain := 0, data := [] } },
   { c with fUniqueHash := c.fUniqueHash.filter (fun e => e.2 ≠ t.uniqueID) })

/-- Modelled from the spec: `removeFingerprintKey(resource)` (the texture's
`resourcePriv().removeScratchKey()`): the fingerprint key leaves the cache index and
the resource; removing an absent key is a no-op. -/
def removeScratchKey (t : GrTexture) (c : GrResourceCache) : GrTexture × GrResourceCache :=
  ({ t with fScratchKey := { resourceType := 0, data := [] } },
   { c with fScratchMap := c.fScratchMap.filter (fun e => e.2 ≠ t.uniqueID) })

/-- Modelled from the spec: releasing one owning reference (`sk_sp::reset`, or the
destructor of an `sk_sp`). The resource is destroyed, and leaves the cache, when the
last reference is released and no cache key retains it. -/
def dropRef (t : GrTexture) (c : GrResourceCache) : GrTexture × GrResourceCache :=
  let t1 := { t with fRefCnt := t.fRefCnt - 1 }
  if t1.fRefCnt = 0 ∧ t1.fUniqueKey.isValid = false ∧ t1.fScratchKey.isValid = false then
    (t1, { c with fResources := c.fResources.erase t.uniqueID })
  else (t1, c)

/-- Modelled from the spec: what a successful steal hands to the caller, the raw backend
handle and its release callback (GrBackendTexture and
SkImage::BackendTextureReleaseProc, not among the sources). -/
structure StolenHandle where
  backendTexture : Nat
  releaseProc : Nat
  deriving DecidableEq, Repr

/-- State at the `return` of `StealBackendTexture`: the returned value, what was
written through the two output pointers (`none` when nothing was written), the texture
object, the cache, and whether the by-value `sk_sp<GrTexture>` parameter still holds
its reference. -/
structure StealOutcome where
  result : Bool
  stolen : Option StolenHandle
  texture : GrTexture
  cache : GrResourceCache
  paramHoldsRef : Bool
  deriving DecidableEq, Repr

/-- The function `GrTexture::StealBackendTexture`, up to its `return`. `texture` is the
object the `sk_sp` parameter points to. `onStealBackendTexture` is the backend's
virtual extraction step: `some h` when it succeeds and writes `h` through the output
pointers, `none` when it fails without side effects. The result is `none` when the
final assertion aborts. -/
def StealBackendTexture (skDebug : Bool) (onStealBackendTexture : GrTexture → Option StolenHandle)
    (texture : GrTexture) (cache : GrResourceCache) : Option StealOutcome :=
  if !texture.unique then
    some { result := false, stolen := none, texture := texture, cache := cache
           paramHoldsRef := true }
  else
    match onStealBackendTexture texture with
    | none =>
      some { result := false, stolen := none, texture := texture, cache := cache
             paramHoldsRef := true }
    | some handle =>
      let preCount := cache.getResourceCount
      let (t1, c1) :=
        if texture.getUniqueKey.isValid then removeUniqueKey texture cache else (texture, cache)
      let (t2, c2) :=
        if t1.getScratchKey.isValid then removeScratchKey t1 c1 else (t1, c1)
      if skDebug then
        let (t3, c3) := dropRef t2 c2
        let postCount := c3.getResourceCount
        if postCount < preCount then
          some { result := true, stolen := some handle, texture := t3, cache := c3
                 paramHoldsRef := false }
        else none
      else
        some { result := true, stolen := some handle, texture := t2, cache := c2
               paramHoldsRef := true }

/-- The destructor of the by-value `sk_sp<GrTexture>` parameter, run when the call
returns: it releases the reference the parameter still holds. -/
def StealOutcome.destroyParam (o : StealOutcome) : StealOutcome :=
  if o.paramHoldsRef then
    let (t, c) := dropRef o.texture o.cache
    { o with texture := t, cache := c, paramHoldsRef := false }
  else o

/-- Modelled from the spec: lookup by identity key in the cache index
(`findAndRefUniqueResource` of GrResourceCache, not among the sources): the resource
registered under the key, if any. -/
def GrResourceCache.findAndRefUniqueResource (c : GrResourceCache) (key : UniqueKey) :
    Option Nat :=
  (c.fUniqueHash.find? (fun e => decide (e.1 = key))).map Prod.snd

/-- Modelled from the spec: lookup by fingerprint key in the cache index
(`findAndRefScratchResource` of GrResourceCache, not among the sources): the resources
registered under the key, any of which the lookup may resolve to. -/
def GrResourceCache.findAndRefScratchResource (c : GrResourceCache) (key : ScratchKey) :
    List Nat :=
  (c.fScratchMap.filter (fun e => decide (e.1 = key))).map Prod.snd

/-! ## Construction -/

/-- Modelled from the spec: the halving count behind the level count, the number of
times `n` can be halved before it drops below 2, with `fuel` bounding the number of
halvings. -/
def halvings : Nat → Nat → Nat
  | 0, _ => 0
  | fuel + 1, n => if n < 2 then 0 else halvings fuel (n / 2) + 1

/-- Modelled from the spec: `SkMipmap::ComputeLevelCount` (SkMipmap.cpp is not among the
sources), the maximum mip level as a function of the larger dimension: the number of
times the larger dimension is halved until it is 1, so that 1x1 gives 0, 2x2 gives 1,
100x50 gives 6 and 1024x1024 gives 10. -/
def SkMipmap.ComputeLevelCount (baseWidth baseHeight : Int) : Int :=
  let largestAxis := (max baseWidth baseHeight).toNat
  (halvings largestAxis largestAxis : Nat)

/-- Modelled from the spec: the getter `GrSurface::width` (not among the sources). -/
def GrTexture.width (t : GrTexture) : Int := t.fDimensions.fWidth

/-- Modelled from the spec: the getter `GrSurface::height` (not among the sources). -/
def GrTexture.height (t : GrTexture) : Int := t.fDimensions.fHeight

/-- Modelled from the spec: the getter `GrTexture::textureType` (GrTexture.h, not among
the sources). -/
def GrTexture.textureType (t : GrTexture) : GrTextureType := t.fTextureType

/-- Modelled from the spec: `GrSurface::setReadOnly` (not among the sources): sets the
read-only flag. -/
def GrTexture.setReadOnly (t : GrTexture) : GrTexture := { t with fReadOnly := true }

/-- What a constructor call of `GrTexture` does not decide itself: the id drawn by
`GrGpuResource`, the results of the subclass's virtual `backendFormat()` and
`asRenderTarget()`, and the content of the four diagnostic members before the
constructor body runs. -/
structure GrTextureInit where
  uniqueID : Nat
  backendFormat : GrBackendFormat
  asRenderTarget : Option GrRenderTarget
  fMipmapDirtyReason : String
  fMipmapRegenFailureReason : String
  fMipmapDirtyFlushNum : Int
  fMipmapDirtyWasFlushing : Bool
  deriving DecidableEq, Repr

/-- The constructor `GrTexture::GrTexture`. `context` is `gpu->getContext()`; the base
class constructors give the new resource one reference, no keys, the dimensions and the
protection flag, and a cleared read-only flag. The label is not modelled. -/
def GrTexture.construct (skDebug : Bool) (context : GrDirectContext) (dimensions : SkISize)
    (isProtected : GrProtected) (textureType : GrTextureType) (mipmapStatus : GrMipmapStatus)
    (init : GrTextureInit) : GrTexture :=
  let t0 : GrTexture :=
    { uniqueID := init.uniqueID
      fRefCnt := 1
      fUniqueKey := { domain := 0, data := [] }
      fScratchKey := { resourceType := 0, data := [] }
      fDimensions := dimensions
      fIsProtected := isProtected
      fReadOnly := false
      backendFormat := init.backendFormat
      asRenderTarget := init.asRenderTarget
      fTextureType := textureType
      fMipmapStatus := mipmapStatus
      fMaxMipmapLevel := 0
      fMipmapDirtyReason := init.fMipmapDirtyReason
      fMipmapRegenFailureReason := init.fMipmapRegenFailureReason
      fMipmapDirtyFlushNum := init.fMipmapDirtyFlushNum
      fMipmapDirtyWasFlushing := init.fMipmapDirtyWasFlushing }
  let t1 :=
    if t0.fMipmapStatus = GrMipmapStatus.kNotAllocated then
      { t0 with fMaxMipmapLevel := 0 }
    else
      { t0 with fMaxMipmapLevel := SkMipmap.ComputeLevelCount t0.width t0.height }
  let t2 :=
    if skDebug then
      if t1.fMipmapStatus = GrMipmapStatus.kDirty then
        { t1 with fMipmapDirtyWasFlushing := context.drawingManager.isFlushing
                  fMipmapDirtyFlushNum := context.drawingManager.flushNumber }
      else t1
    else t1
  if textureType = GrTextureType.kExternal then t2.setReadOnly else t2

/-! ## The dirty-mipmap check -/

/-- Modelled from the spec: the texture proxy handed to the check (GrTextureProxy, not
among the sources), reduced to the three queries made on it. -/
structure GrTextureProxy where
  mipmapsAreDirty : Bool
  slatedForMipmapRegen : Bool
  mipmapDirtyReport : String
  deriving DecidableEq, Repr

/-- What the `SK_GL` part of the check reads: the GL format of the backend format,
whether the context's backend is OpenGL, and whether the GL texture id is borrowed. -/
structure GLTextureInfo where
  glFormat : Int
  backendIsOpenGL : Bool
  idBorrowed : Bool
  deriving DecidableEq, Repr

/-- The arguments of the first `SkStringPrintf` appended to the abort message, in
order. -/
structure ContextReport where
  dirtyReason : String
  dirtiedFlushNum : Int
  dirtiedWasFlushing : Bool
  flushNum : Int
  isFlushing : Bool
  width : Int
  height : Int
  format : Int
  isRT : Bool
  sampleCount : Int
  borrowed : Int
  textureType : GrTextureType
  readOnly : Bool
  regenFailureReason : String
  deriving DecidableEq, Repr

/-- The part of the abort message that comes from the proxy; the dirty report is there
only when the proxy's mipmaps are dirty. -/
structure ProxyReport where
  mipmapsAreDirty : Bool
  slatedForMipmapRegen : Bool
  dirtyReport : Option String
  deriving DecidableEq, Repr

/-- The message `SK_ABORT` is called with: the fixed head, then the context part and the
proxy part when a context and a proxy are there. -/
structure AbortMessage where
  head : String
  contextPart : Option ContextReport
  proxyPart : Option ProxyReport
  deriving DecidableEq, Repr

/-- The function `GrTexture::assertMipmapsNotDirty`, which exists in `SK_DEBUG` builds
only. `context` is `this->getContext()`, `gl` is `none` in a build without `SK_GL`.
The result is `Except.error msg` when `SK_ABORT` is reached and `Except.ok ()` when
the function returns. -/
def GrTexture.assertMipmapsNotDirty (context : Option GrDirectContext)
    (gl : Option GLTextureInfo) (proxy : Option GrTextureProxy) (t : GrTexture) :
    Except AbortMessage Unit :=
  if decide (t.mipmapped = GrMipmapped.kYes) && t.mipmapsAreDirty then
    let contextPart : Option ContextReport :=
      match context with
      | some ctx =>
        let flushNum := ctx.drawingManager.flushNumber
        let isFlushing := ctx.drawingManager.isFlushing
        let (isRT, sampleCount) : Bool × Int :=
          match t.asRenderTarget with
          | some rt => (true, rt.numSamples)
          | none => (false, 1)
        let (format, borrowed) : Int × Int :=
          match gl with
          | some info =>
            (info.glFormat,
              if info.backendIsOpenGL then (if info.idBorrowed then 1 else 0) else -1)
          | none => (0, -1)
        some { dirtyReason := t.fMipmapDirtyReason
               dirtiedFlushNum := t.fMipmapDirtyFlushNum
               dirtiedWasFlushing := t.fMipmapDirtyWasFlushing
               flushNum := flushNum
               isFlushing := isFlushing
               width := t.width
               height := t.height
               format := format
               isRT := isRT
               sampleCount := sampleCount
               borrowed := borrowed
               textureType := t.textureType
               readOnly := t.readOnly
               regenFailureReason := t.fMipmapRegenFailureReason }
      | none => none
    let proxyPart : Option ProxyReport :=
      match proxy with
      | some p =>
        some { mipmapsAreDirty := p.mipmapsAreDirty
               slatedForMipmapRegen := p.slatedForMipmapRegen
               dirtyReport := if p.mipmapsAreDirty then some p.mipmapDirtyReport else none }
      | none => none
    Except.error { head := "MM dirty unexpectedly."
                   contextPart := contextPart
                   proxyPart := proxyPart }
  else Except.ok ()

/-! ## Frame of the clean/dirty operations -/

/-- The texture `b` differs from `a` at most in the mipmap status and its diagnostic
provenance (dirty reason, dirty flush number, was-flushing flag, regeneration-failure
reason): every other member is the same. -/
@[reducible]
def GrTexture.sameOutsideMipmapState (a b : GrTexture) : Prop :=
  b = { a with fMipmapStatus := b.fMipmapStatus
               fMipmapDirtyReason := b.fMipmapDirtyReason
               fMipmapDirtyFlushNum := b.fMipmapDirtyFlushNum
               fMipmapDirtyWasFlushing := b.fMipmapDirtyWasFlushing
               fMipmapRegenFailureReason := b.fMipmapRegenFailureReason }

/-! ## Example values -/

/-- A 64x64 texture with valid mipmaps, one reference, an identity key and a
fingerprint key, as in the scenarios of the specification. -/
def validTexture : GrTexture where
  uniqueID := 3
  fRefCnt := 1
  fUniqueKey := { domain := 1, data := [42] }
  fScratchKey := { resourceType := 7, data := [64, 64, 1, 0, 9] }
  fDimensions := { fWidth := 64, fHeight := 64 }
  fIsProtected := GrProtected.kNo
  fReadOnly := false
  backendFormat := 1
  asRenderTarget := none
  fTextureType := GrTextureType.k2D
  fMipmapStatus := GrMipmapStatus.kValid
  fMaxMipmapLevel := 6
  fMipmapDirtyReason := "creation"
  fMipmapRegenFailureReason := "did not fail"
  fMipmapDirtyFlushNum := 0
  fMipmapDirtyWasFlushing := false

/-- A capability provider whose formats are never compressed and whose format key is
the format itself. -/
def plainCaps : GrCaps where
  isFormatCompressed := fun _ => false
  computeFormatKey := fun x => x

/-- A capability provider that reports every format compressed. -/
def compressedCaps : GrCaps where
  isFormatCompressed := fun _ => true
  computeFormatKey := fun x => x

/-- A cache holding three resources, the example texture among them, indexed by both
of its keys. -/
def exampleCache : GrResourceCache where
  fResources := [1, 3, 5]
  fUniqueHash := [({ domain := 1, data := [42] }, 3)]
  fScratchMap := [({ resourceType := 7, data := [64, 64, 1, 0, 9] }, 3)]

/-- The members of the example texture that its constructor call does not decide. -/
def exampleInit : GrTextureInit where
  uniqueID := 3
  backendFormat := 1
  asRenderTarget := none
  fMipmapDirtyReason := "creation"
  fMipmapRegenFailureReason := "did not fail"
  fMipmapDirtyFlushNum := 0
  fMipmapDirtyWasFlushing := false

/-- A context whose drawing manager is in flush number 7 and flushing. -/
def exampleContext : GrDirectContext where
  drawingManager := { flushNumber := 7, isFlushing := true }

/-- A backend extraction step that always succeeds. -/
def stealingBackend : GrTexture → Option StolenHandle := fun _ => some ⟨11, 12⟩

/-- The state in which the diagnostic build returns from a steal of the example texture
out of the example cache. -/
def exampleStolen : StealOutcome where
  result := true
  stolen := some ⟨11, 12⟩
  texture := { validTexture with
                 fRefCnt := 0
                 fUniqueKey := { domain := 0, data := [] }
                 fScratchKey := { resourceType := 0, data := [] } }
  cache := { fResources := [1, 5], fUniqueHash := [], fScratchMap := [] }
  paramHoldsRef := false

/-- The example texture as a render target with four samples. -/
def renderTargetTexture : GrTexture := { validTexture with asRenderTarget := some ⟨4⟩ }

/-- The example texture without mip storage. -/
def unallocatedTexture : GrTexture :=
  { validTexture with fMipmapStatus := GrMipmapStatus.kNotAllocated, fMaxMipmapLevel := 0 }

/-- The example texture without any key, as a wrapped texture would be. -/
def keylessTexture : GrTexture :=
  { validTexture with
      fUniqueKey := { domain := 0, data := [] }
      fScratchKey := { resourceType := 0, data := [] } }

/-- A cache holding three resources, the keyless example texture among them, with
nothing indexed. -/
def keylessCache : GrResourceCache where
  fResources := [1, 3, 5]
  fUniqueHash := []
  fScratchMap := []

/-! ## Lemmas on the key words -/

theorem toU32_of_nonneg (x : Int) (h0 : 0 ≤ x) (h1 : x < 4294967296) :
    ((toU32 x : Nat) : Int) = x := by
  unfold toU32
  omega

theorem low_word_eq (fk : Nat) : (fk &&& 0xFFFFFFFF) % 4294967296 = fk % 4294967296 := by
  have h := Nat.and_pow_two_sub_one_eq_mod fk 32
  norm_num at h
  rw [h]
  exact Nat.mod_mod _ _

theorem high_word_eq (fk : Nat) (h : fk < 18446744073709551616) :
    ((fk >>> 32) &&& 0xFFFFFFFF) % 4294967296 = fk / 4294967296 := by
  have h1 := Nat.and_pow_two_sub_one_eq_mod (fk >>> 32) 32
  norm_num at h1
  rw [h1, Nat.shiftRight_eq_div_pow]
  norm_num
  omega

theorem packed_word_eq (m : GrMipmapped) (p : GrProtected) (r : GrRenderable) (s : Int)
    (h0 : 0 < s) (h1 : s < 536870912) :
    shl32 m.toU32 0 ||| shl32 p.toU32 1 ||| shl32 r.toU32 2 ||| shl32 (toU32 s) 3
      = m.toU32 + 2 * p.toU32 + 4 * r.toU32 + 8 * s.toNat := by
  have hs : toU32 s = s.toNat := by unfold toU32; omega
  have h8 : shl32 (toU32 s) 3 = 2 ^ 3 * s.toNat := by
    rw [hs]; unfold shl32; rw [Nat.shiftLeft_eq]; omega
  rw [h8]
  have key : ∀ c : Nat, c < 2 ^ 3 → c ||| 2 ^ 3 * s.toNat = c + 8 * s.toNat := by
    intro c hc
    rw [Nat.or_comm, ← Nat.mul_add_lt_is_or hc]
    omega
  cases m <;> cases p <;> cases r <;>
    simp only [GrMipmapped.toU32, GrProtected.toU32, GrRenderable.toU32, shl32] <;>
    exact key _ (by decide)


theorem asserts_of_valid (d : SkISize) (fk : Nat) (r : GrRenderable) (s : Int)
    (m : GrMipmapped) (p : GrProtected) (h : ValidScratchArgs d fk r s) :
    ComputeScratchKey_asserts d r s m p = true := by
  obtain ⟨hw0, _, hh0, _, _, hs0, hs1, hr⟩ := h
  have hs : toU32 s < 536870912 := by unfold toU32; omega
  have hm : m.toU32 ≤ 1 := by cases m <;> simp [GrMipmapped.toU32]
  have hp : p.toU32 ≤ 1 := by cases p <;> simp [GrProtected.toU32]
  have hr1 : r.toU32 ≤ 1 := by cases r <;> simp [GrRenderable.toU32]
  have hr2 : 1 = s ∨ r = GrRenderable.kYes := by
    rcases hr with h | h
    · exact Or.inl h.symm
    · exact Or.inr h
  simp [ComputeScratchKey_asserts, SkISize.isEmpty, hw0, hh0, hs0, hs, hm, hp, hr1, hr2]

/-- The key built from arguments that meet the caller contract, in arithmetic form. -/
theorem ComputeScratchKey_of_valid (skDebug : Bool) (kType : Nat) (caps : GrCaps)
    (f : GrBackendFormat) (d : SkISize) (r : GrRenderable) (s : Int) (m : GrMipmapped)
    (p : GrProtected) (k : ScratchKey) (h : ValidScratchArgs d (caps.computeFormatKey f) r s) :
    ComputeScratchKey skDebug kType caps f d r s m p k
      = some { resourceType := kType
               data := [ d.fWidth.toNat, d.fHeight.toNat
                       , caps.computeFormatKey f % 4294967296
                       , caps.computeFormatKey f / 4294967296
                       , m.toU32 + 2 * p.toU32 + 4 * r.toU32 + 8 * s.toNat ] } := by
  have ha := asserts_of_valid d (caps.computeFormatKey f) r s m p h
  obtain ⟨hw0, hw1, hh0, hh1, hfk, hs0, hs1, _⟩ := h
  have hw : toU32 d.fWidth = d.fWidth.toNat := by unfold toU32; omega
  have hh : toU32 d.fHeight = d.fHeight.toNat := by unfold toU32; omega
  have hmod : caps.computeFormatKey f % 18446744073709551616 = caps.computeFormatKey f :=
    Nat.mod_eq_of_lt hfk
  unfold ComputeScratchKey
  simp only [ha, Bool.not_true, Bool.and_false, Bool.false_eq_true, if_false]
  rw [hmod, low_word_eq, high_word_eq _ hfk, packed_word_eq m p r s hs0 hs1, hw, hh]

theorem xor_even_succ (a : Nat) (h : a % 2 = 0) : a ^^^ (a + 1) = 1 := by
  apply Nat.eq_of_testBit_eq
  intro i
  rw [Nat.testBit_xor]
  cases i with
  | zero =>
    have h1 : (a + 1) % 2 = 1 := by omega
    simp [Nat.testBit_zero, h, h1]
  | succ j =>
    have h1 : (a + 1) / 2 = a / 2 := by omega
    simp [Nat.testBit_succ, h1]

/-! ## Scratch-key builder -/

/-- C1: for two attribute tuples that meet the caller contract of ComputeScratchKey
(positive int32 dimensions, 64-bit format key, 0 < sampleCnt < 2^29, sampleCnt = 1
unless renderable), both calls return a key carrying the same resource-type tag and
five words, and the two keys are equal if and only if the two tuples are equal. -/
theorem ComputeScratchKey_eq_iff (skDebug : Bool) (kType : Nat) (caps1 caps2 : GrCaps)
    (f1 f2 : GrBackendFormat) (d1 d2 : SkISize) (r1 r2 : GrRenderable) (s1 s2 : Int)
    (m1 m2 : GrMipmapped) (p1 p2 : GrProtected) (k1 k2 : ScratchKey)
    (h1 : ValidScratchArgs d1 (caps1.computeFormatKey f1) r1 s1)
    (h2 : ValidScratchArgs d2 (caps2.computeFormatKey f2) r2 s2) :
    ∃ key1 key2 : ScratchKey,
      ComputeScratchKey skDebug kType caps1 f1 d1 r1 s1 m1 p1 k1 = some key1
      ∧ ComputeScratchKey skDebug kType caps2 f2 d2 r2 s2 m2 p2 k2 = some key2
      ∧ key1.resourceType = kType ∧ key2.resourceType = kType
      ∧ key1.data.length = 5 ∧ key2.data.length = 5
      ∧ (key1 = key2 ↔
          (d1 = d2 ∧ caps1.computeFormatKey f1 = caps2.computeFormatKey f2
            ∧ r1 = r2 ∧ s1 = s2 ∧ m1 = m2 ∧ p1 = p2)) := by
  refine ⟨_, _, ComputeScratchKey_of_valid skDebug kType caps1 f1 d1 r1 s1 m1 p1 k1 h1,
    ComputeScratchKey_of_valid skDebug kType caps2 f2 d2 r2 s2 m2 p2 k2 h2, rfl, rfl, rfl, rfl, ?_⟩
  obtain ⟨hw1, _, hh1, _, hf1, hs1, _, _⟩ := h1
  obtain ⟨hw2, _, hh2, _, hf2, hs2, _, _⟩ := h2
  constructor
  · intro h
    simp only [ScratchKey.mk.injEq, List.cons.injEq, and_true, true_and] at h
    obtain ⟨ew, eh, e2, e3, e4⟩ := h
    have hd : d1 = d2 := by
      cases d1; cases d2
      simp only [SkISize.mk.injEq] at *
      omega
    have hfk : caps1.computeFormatKey f1 = caps2.computeFormatKey f2 := by omega
    refine ⟨hd, hfk, ?_⟩
    cases m1 <;> cases m2 <;> cases p1 <;> cases p2 <;> cases r1 <;> cases r2 <;>
      simp only [GrMipmapped.toU32, GrProtected.toU32, GrRenderable.toU32] at e4 <;>
      first
        | (refine ⟨rfl, ?_, rfl, rfl⟩; omega)
        | (exfalso; omega)
  · rintro ⟨hd, hfk, hr, hs, hm, hp⟩
    subst hd hr hs hm hp
    rw [hfk]

/-- C2: for arguments that meet the caller contract, ComputeScratchKey writes exactly
five 32-bit words: width, height, the low and the high half of the format key, and
mipmapped + 2*protected + 4*renderable + 8*sampleCnt without overflow; the two halves
recombine to the format key, bits 0, 1, 2 of the last word are the three flags and the
last word shifted right by 3 is the sample count. -/
theorem ComputeScratchKey_words (skDebug : Bool) (kType : Nat) (caps : GrCaps)
    (f : GrBackendFormat) (d : SkISize) (r : GrRenderable) (s : Int) (m : GrMipmapped)
    (p : GrProtected) (k : ScratchKey)
    (h : ValidScratchArgs d (caps.computeFormatKey f) r s) :
    ∃ w0 w1 w2 w3 w4 : Nat,
      ComputeScratchKey skDebug kType caps f d r s m p k
        = some { resourceType := kType, data := [w0, w1, w2, w3, w4] }
      ∧ w0 < 4294967296 ∧ w1 < 4294967296 ∧ w2 < 4294967296 ∧ w3 < 4294967296
      ∧ w4 < 4294967296
      ∧ (w0 : Int) = d.fWidth ∧ (w1 : Int) = d.fHeight
      ∧ w2 = caps.computeFormatKey f % 4294967296
      ∧ w3 = caps.computeFormatKey f / 4294967296
      ∧ (w4 : Int) = m.toU32 + 2 * p.toU32 + 4 * r.toU32 + 8 * s
      ∧ (m.toU32 : Int) + 2 * p.toU32 + 4 * r.toU32 + 8 * s < 4294967296
      ∧ (w3 <<< 32) ||| w2 = caps.computeFormatKey f
      ∧ w4.testBit 0 = decide (m = GrMipmapped.kYes)
      ∧ w4.testBit 1 = decide (p = GrProtected.kYes)
      ∧ w4.testBit 2 = decide (r = GrRenderable.kYes)
      ∧ ((w4 >>> 3 : Nat) : Int) = s := by
  refine ⟨_, _, _, _, _, ComputeScratchKey_of_valid skDebug kType caps f d r s m p k h, ?_⟩
  obtain ⟨hw0, hw1, hh0, hh1, hfk, hs0, hs1, _⟩ := h
  have hm : m.toU32 ≤ 1 := by cases m <;> simp [GrMipmapped.toU32]
  have hp : p.toU32 ≤ 1 := by cases p <;> simp [GrProtected.toU32]
  have hr : r.toU32 ≤ 1 := by cases r <;> simp [GrRenderable.toU32]
  have hjoin : ((caps.computeFormatKey f / 4294967296) <<< 32)
      ||| (caps.computeFormatKey f % 4294967296) = caps.computeFormatKey f := by
    have hlt : caps.computeFormatKey f % 4294967296 < 2 ^ 32 := by omega
    rw [Nat.shiftLeft_eq, Nat.mul_comm, ← Nat.mul_add_lt_is_or hlt]
    omega
  refine ⟨by omega, by omega, by omega, by omega, by omega, by omega, by omega, rfl, rfl,
    by omega, by omega, hjoin, ?_, ?_, ?_, ?_⟩
  · rw [Nat.testBit_to_div_mod]
    cases m <;> simp only [GrMipmapped.toU32] <;> simp <;> omega
  · rw [Nat.testBit_to_div_mod]
    cases p <;> simp only [GrProtected.toU32] <;> simp <;> omega
  · rw [Nat.testBit_to_div_mod]
    cases r <;> simp only [GrRenderable.toU32] <;> simp <;> omega
  · rw [Nat.shiftRight_eq_div_pow]
    omega

theorem ComputeScratchKey_eq_iff_witness :
    ValidScratchArgs ⟨64, 64⟩ 1 GrRenderable.kNo 1
    ∧ ValidScratchArgs ⟨64, 32⟩ 1 GrRenderable.kYes 4
    ∧ ∃ key1 key2 : ScratchKey,
      ComputeScratchKey true 7 ⟨fun _ => false, fun x => x⟩ 1 ⟨64, 64⟩ GrRenderable.kNo 1
          GrMipmapped.kNo GrProtected.kNo ⟨0, []⟩ = some key1
      ∧ ComputeScratchKey true 7 ⟨fun _ => false, fun x => x⟩ 1 ⟨64, 32⟩ GrRenderable.kYes 4
          GrMipmapped.kYes GrProtected.kNo ⟨0, []⟩ = some key2
      ∧ key1.resourceType = 7 ∧ key2.resourceType = 7
      ∧ key1.data.length = 5 ∧ key2.data.length = 5
      ∧ (key1 = key2 ↔
          ((⟨64, 64⟩ : SkISize) = ⟨64, 32⟩ ∧ (1 : Nat) = 1
            ∧ GrRenderable.kNo = GrRenderable.kYes ∧ (1 : Int) = 4
            ∧ GrMipmapped.kNo = GrMipmapped.kYes ∧ GrProtected.kNo = GrProtected.kNo)) :=
  ⟨by decide, by decide,
    ComputeScratchKey_eq_iff true 7 ⟨fun _ => false, fun x => x⟩ ⟨fun _ => false, fun x => x⟩
      1 1 ⟨64, 64⟩ ⟨64, 32⟩ GrRenderable.kNo GrRenderable.kYes 1 4
      GrMipmapped.kNo GrMipmapped.kYes GrProtected.kNo GrProtected.kNo ⟨0, []⟩ ⟨0, []⟩
      (by decide) (by decide)⟩

theorem ComputeScratchKey_words_witness :
    ValidScratchArgs ⟨100, 50⟩ 4294967298 GrRenderable.kYes 4
    ∧ ∃ w0 w1 w2 w3 w4 : Nat,
      ComputeScratchKey true 7 ⟨fun _ => false, fun x => x⟩ 4294967298 ⟨100, 50⟩
          GrRenderable.kYes 4 GrMipmapped.kYes GrProtected.kNo ⟨0, []⟩
        = some { resourceType := 7, data := [w0, w1, w2, w3, w4] }
      ∧ w0 < 4294967296 ∧ w1 < 4294967296 ∧ w2 < 4294967296 ∧ w3 < 4294967296
      ∧ w4 < 4294967296
      ∧ (w0 : Int) = 100 ∧ (w1 : Int) = 50
      ∧ w2 = 4294967298 % 4294967296
      ∧ w3 = 4294967298 / 4294967296
      ∧ (w4 : Int) = GrMipmapped.kYes.toU32 + 2 * GrProtected.kNo.toU32
          + 4 * GrRenderable.kYes.toU32 + 8 * 4
      ∧ (GrMipmapped.kYes.toU32 : Int) + 2 * GrProtected.kNo.toU32
          + 4 * GrRenderable.kYes.toU32 + 8 * 4 < 4294967296
      ∧ (w3 <<< 32) ||| w2 = 4294967298
      ∧ w4.testBit 0 = decide (GrMipmapped.kYes = GrMipmapped.kYes)
      ∧ w4.testBit 1 = decide (GrProtected.kNo = GrProtected.kYes)
      ∧ w4.testBit 2 = decide (GrRenderable.kYes = GrRenderable.kYes)
      ∧ ((w4 >>> 3 : Nat) : Int) = 4 :=
  ⟨by decide,
    ComputeScratchKey_words true 7 ⟨fun _ => false, fun x => x⟩ 4294967298 ⟨100, 50⟩
      GrRenderable.kYes 4 GrMipmapped.kYes GrProtected.kNo ⟨0, []⟩ (by decide)⟩

/-- C3, as amended: for a 64x64 texture with format fingerprint 0x1, not renderable, one
sample, not protected, the fifth word of the key is 0b1000 when not mipmapped and
0b1001 when mipmapped: the sample count 1 sits in bits 3 and up, and the three flag
bits below it are 0b000 and 0b001. -/
theorem ComputeScratchKey_scenario (skDebug : Bool) (kType : Nat) (caps : GrCaps)
    (f : GrBackendFormat) (k : ScratchKey) (hfk : caps.computeFormatKey f = 0x1) :
    ComputeScratchKey skDebug kType caps f ⟨64, 64⟩ GrRenderable.kNo 1 GrMipmapped.kNo
        GrProtected.kNo k
      = some { resourceType := kType, data := [64, 64, 1, 0, 0b1000] }
    ∧ ComputeScratchKey skDebug kType caps f ⟨64, 64⟩ GrRenderable.kNo 1 GrMipmapped.kYes
        GrProtected.kNo k
      = some { resourceType := kType, data := [64, 64, 1, 0, 0b1001] }
    ∧ 0b1000 % 8 = 0b000 ∧ 0b1001 % 8 = 0b001
    ∧ 0b1000 >>> 3 = 1 ∧ 0b1001 >>> 3 = 1 := by
  have hv : ValidScratchArgs ⟨64, 64⟩ (caps.computeFormatKey f) GrRenderable.kNo 1 := by
    rw [hfk]; decide
  rw [ComputeScratchKey_of_valid skDebug kType caps f _ _ _ GrMipmapped.kNo _ k hv,
    ComputeScratchKey_of_valid skDebug kType caps f _ _ _ GrMipmapped.kYes _ k hv, hfk]
  exact ⟨rfl, rfl, rfl, rfl, rfl, rfl⟩

theorem ComputeScratchKey_scenario_witness :
    (1 : Nat) = 0x1
    ∧ ComputeScratchKey true 7 ⟨fun _ => false, fun _ => 1⟩ 0 ⟨64, 64⟩ GrRenderable.kNo 1
        GrMipmapped.kNo GrProtected.kNo ⟨0, []⟩
      = some { resourceType := 7, data := [64, 64, 1, 0, 0b1000] }
    ∧ ComputeScratchKey true 7 ⟨fun _ => false, fun _ => 1⟩ 0 ⟨64, 64⟩ GrRenderable.kNo 1
        GrMipmapped.kYes GrProtected.kNo ⟨0, []⟩
      = some { resourceType := 7, data := [64, 64, 1, 0, 0b1001] }
    ∧ 0b1000 % 8 = 0b000 ∧ 0b1001 % 8 = 0b001
    ∧ 0b1000 >>> 3 = 1 ∧ 0b1001 >>> 3 = 1 :=
  ⟨rfl, ComputeScratchKey_scenario true 7 ⟨fun _ => false, fun _ => 1⟩ 0 ⟨0, []⟩ rfl⟩

/-- C3, as stated, fails: for the 64x64 texture with format fingerprint 0x1, not
renderable, one sample, not mipmapped, not protected, the fifth word of the key is 8,
not 0b000, and with mipmapped = yes it is 9, not 0b001, in both builds. -/
theorem packed_word_of_scenario_is_not_flags_only :
    (ComputeScratchKey true 7 ⟨fun _ => false, fun _ => 1⟩ 0 ⟨64, 64⟩ GrRenderable.kNo 1
        GrMipmapped.kNo GrProtected.kNo ⟨0, []⟩).map (fun key => key.data.get? 4)
      = some (some 8)
    ∧ (ComputeScratchKey false 7 ⟨fun _ => false, fun _ => 1⟩ 0 ⟨64, 64⟩ GrRenderable.kNo 1
        GrMipmapped.kNo GrProtected.kNo ⟨0, []⟩).map (fun key => key.data.get? 4)
      = some (some 8)
    ∧ (ComputeScratchKey true 7 ⟨fun _ => false, fun _ => 1⟩ 0 ⟨64, 64⟩ GrRenderable.kNo 1
        GrMipmapped.kYes GrProtected.kNo ⟨0, []⟩).map (fun key => key.data.get? 4)
      = some (some 9)
    ∧ (8 : Nat) ≠ 0b000 ∧ (9 : Nat) ≠ 0b001 := by
  refine ⟨by decide, by decide, by decide, by decide, by decide⟩

/-- C4: for arguments that meet the caller contract, the key built with mipmapped = no
and the key built with mipmapped = yes are different, carry the same resource-type tag
and the same words 0 to 3, and the exclusive or of their fifth words is exactly 1. -/
theorem ComputeScratchKey_mipmapped_bit (skDebug : Bool) (kType : Nat) (caps : GrCaps)
    (f : GrBackendFormat) (d : SkISize) (r : GrRenderable) (s : Int) (p : GrProtected)
    (k : ScratchKey) (h : ValidScratchArgs d (caps.computeFormatKey f) r s) :
    ∃ (keyA keyB : ScratchKey) (w0 w1 w2 w3 a b : Nat),
      ComputeScratchKey skDebug kType caps f d r s GrMipmapped.kNo p k = some keyA
      ∧ ComputeScratchKey skDebug kType caps f d r s GrMipmapped.kYes p k = some keyB
      ∧ keyA ≠ keyB
      ∧ keyA.resourceType = keyB.resourceType
      ∧ keyA.data = [w0, w1, w2, w3, a]
      ∧ keyB.data = [w0, w1, w2, w3, b]
      ∧ a ^^^ b = 1 := by
  refine ⟨_, _, _, _, _, _, _, _,
    ComputeScratchKey_of_valid skDebug kType caps f d r s GrMipmapped.kNo p k h,
    ComputeScratchKey_of_valid skDebug kType caps f d r s GrMipmapped.kYes p k h,
    ?_, rfl, rfl, rfl, ?_⟩
  · intro he
    simp only [ScratchKey.mk.injEq, List.cons.injEq, and_true, true_and,
      GrMipmapped.toU32] at he
    omega
  · simp only [GrMipmapped.toU32]
    have he : (0 + 2 * p.toU32 + 4 * r.toU32 + 8 * s.toNat) % 2 = 0 := by omega
    have hx := xor_even_succ _ he
    have hc : 1 + 2 * p.toU32 + 4 * r.toU32 + 8 * s.toNat
        = 0 + 2 * p.toU32 + 4 * r.toU32 + 8 * s.toNat + 1 := by omega
    rw [hc]
    exact hx

theorem ComputeScratchKey_mipmapped_bit_witness :
    ValidScratchArgs ⟨64, 64⟩ 1 GrRenderable.kYes 4
    ∧ ∃ (keyA keyB : ScratchKey) (w0 w1 w2 w3 a b : Nat),
      ComputeScratchKey false 7 ⟨fun _ => false, fun x => x⟩ 1 ⟨64, 64⟩ GrRenderable.kYes 4
          GrMipmapped.kNo GrProtected.kYes ⟨0, []⟩ = some keyA
      ∧ ComputeScratchKey false 7 ⟨fun _ => false, fun x => x⟩ 1 ⟨64, 64⟩ GrRenderable.kYes 4
          GrMipmapped.kYes GrProtected.kYes ⟨0, []⟩ = some keyB
      ∧ keyA ≠ keyB
      ∧ keyA.resourceType = keyB.resourceType
      ∧ keyA.data = [w0, w1, w2, w3, a]
      ∧ keyB.data = [w0, w1, w2, w3, b]
      ∧ a ^^^ b = 1 :=
  ⟨by decide,
    ComputeScratchKey_mipmapped_bit false 7 ⟨fun _ => false, fun x => x⟩ 1 ⟨64, 64⟩
      GrRenderable.kYes 4 GrProtected.kYes ⟨0, []⟩ (by decide)⟩

/-- In either build ComputeScratchKey returns a key, tagged with the resource type and
five words long, when the build has no assertions or the arguments meet the contract. -/
theorem ComputeScratchKey_produces (skDebug : Bool) (kType : Nat) (caps : GrCaps)
    (f : GrBackendFormat) (d : SkISize) (r : GrRenderable) (s : Int) (m : GrMipmapped)
    (p : GrProtected) (k : ScratchKey)
    (h : skDebug = false ∨ ValidScratchArgs d (caps.computeFormatKey f) r s) :
    ∃ key : ScratchKey, ComputeScratchKey skDebug kType caps f d r s m p k = some key
      ∧ key.resourceType = kType ∧ key.data.length = 5 := by
  rcases h with h | h
  · subst h
    simp only [ComputeScratchKey, Bool.false_and, Bool.false_eq_true, if_false]
    exact ⟨_, rfl, rfl, rfl⟩
  · exact ⟨_, ComputeScratchKey_of_valid skDebug kType caps f d r s m p k h, rfl, rfl⟩

/-! ## Scratch key of a texture -/

/-- C5: when the capability provider reports the texture's format compressed,
computeScratchKey returns with the output key exactly as passed in, for every texture
and in both builds, so that no assertion of ComputeScratchKey is evaluated; when the
format is not compressed the result is that of ComputeScratchKey on the texture's own
format, dimensions, mipmapped and protected attributes, with renderable = no and
sample count 1 for a plain texture, and renderable = yes and the render target's sample
count for a render target, and that result is a key (resource-type tag and five words)
whenever these attributes meet the caller contract or the build has no assertions. -/
theorem computeScratchKey_compressed_or_own (skDebug : Bool) (kType : Nat) (caps : GrCaps)
    (t : GrTexture) (key : ScratchKey) :
    (caps.isFormatCompressed t.backendFormat = true →
      t.computeScratchKey skDebug kType caps key = some key)
    ∧ (caps.isFormatCompressed t.backendFormat = false →
        (t.asRenderTarget = none →
          t.computeScratchKey skDebug kType caps key
            = ComputeScratchKey skDebug kType caps t.backendFormat t.fDimensions
                GrRenderable.kNo 1 t.mipmapped t.fIsProtected key
          ∧ ((skDebug = false ∨ ValidScratchArgs t.fDimensions
                (caps.computeFormatKey t.backendFormat) GrRenderable.kNo 1) →
              ∃ own : ScratchKey, t.computeScratchKey skDebug kType caps key = some own
                ∧ own.resourceType = kType ∧ own.data.length = 5))
        ∧ (∀ rt : GrRenderTarget, t.asRenderTarget = some rt →
          t.computeScratchKey skDebug kType caps key
            = ComputeScratchKey skDebug kType caps t.backendFormat t.fDimensions
                GrRenderable.kYes rt.fSampleCnt t.mipmapped t.fIsProtected key
          ∧ ((skDebug = false ∨ ValidScratchArgs t.fDimensions
                (caps.computeFormatKey t.backendFormat) GrRenderable.kYes rt.fSampleCnt) →
              ∃ own : ScratchKey, t.computeScratchKey skDebug kType caps key = some own
                ∧ own.resourceType = kType ∧ own.data.length = 5))) := by
  have hp : (if t.isProtected = true then GrProtected.kYes else GrProtected.kNo)
      = t.fIsProtected := by
    unfold GrTexture.isProtected
    cases t.fIsProtected <;> simp
  refine ⟨?_, ?_⟩
  · intro hc
    simp [GrTexture.computeScratchKey, hc]
  · intro hc
    refine ⟨?_, ?_⟩
    · intro hrt
      have he : t.computeScratchKey skDebug kType caps key
          = ComputeScratchKey skDebug kType caps t.backendFormat t.fDimensions
              GrRenderable.kNo 1 t.mipmapped t.fIsProtected key := by
        simp only [GrTexture.computeScratchKey, hc, hrt, hp, GrTexture.dimensions]
        rfl
      refine ⟨he, fun hv => ?_⟩
      rw [he]
      exact ComputeScratchKey_produces skDebug kType caps _ _ _ _ _ _ key hv
    · intro rt hrt
      have he : t.computeScratchKey skDebug kType caps key
          = ComputeScratchKey skDebug kType caps t.backendFormat t.fDimensions
              GrRenderable.kYes rt.fSampleCnt t.mipmapped t.fIsProtected key := by
        simp only [GrTexture.computeScratchKey, hc, hrt, hp, GrTexture.dimensions,
          GrRenderTarget.numSamples]
        rfl
      refine ⟨he, fun hv => ?_⟩
      rw [he]
      exact ComputeScratchKey_produces skDebug kType caps _ _ _ _ _ _ key hv

theorem computeScratchKey_compressed_or_own_witness :
    (validTexture.computeScratchKey true 7 compressedCaps ⟨0, []⟩ = some ⟨0, []⟩)
    ∧ (validTexture.computeScratchKey true 7 plainCaps ⟨0, []⟩
        = ComputeScratchKey true 7 plainCaps validTexture.backendFormat validTexture.fDimensions
            GrRenderable.kNo 1 validTexture.mipmapped validTexture.fIsProtected ⟨0, []⟩)
    ∧ (∃ own : ScratchKey, validTexture.computeScratchKey true 7 plainCaps ⟨0, []⟩ = some own
        ∧ own.resourceType = 7 ∧ own.data.length = 5)
    ∧ (({ validTexture with asRenderTarget := some ⟨4⟩ } : GrTexture).computeScratchKey
          true 7 plainCaps ⟨0, []⟩
        = ComputeScratchKey true 7 plainCaps validTexture.backendFormat validTexture.fDimensions
            GrRenderable.kYes 4 validTexture.mipmapped validTexture.fIsProtected ⟨0, []⟩)
    ∧ (∃ own : ScratchKey,
        ({ validTexture with asRenderTarget := some ⟨4⟩ } : GrTexture).computeScratchKey
          true 7 plainCaps ⟨0, []⟩ = some own
        ∧ own.resourceType = 7 ∧ own.data.length = 5) :=
  ⟨(computeScratchKey_compressed_or_own true 7 compressedCaps validTexture ⟨0, []⟩).1 rfl,
   (((computeScratchKey_compressed_or_own true 7 plainCaps validTexture ⟨0, []⟩).2 rfl).1 rfl).1,
   (((computeScratchKey_compressed_or_own true 7 plainCaps validTexture ⟨0, []⟩).2 rfl).1 rfl).2
      (Or.inr (by decide)),
   (((computeScratchKey_compressed_or_own true 7 plainCaps
      { validTexture with asRenderTarget := some ⟨4⟩ } ⟨0, []⟩).2 rfl).2 ⟨4⟩ rfl).1,
   (((computeScratchKey_compressed_or_own true 7 plainCaps
      { validTexture with asRenderTarget := some ⟨4⟩ } ⟨0, []⟩).2 rfl).2 ⟨4⟩ rfl).2
      (Or.inr (by decide))⟩

/-! ## Mipmap status -/

theorem markMipmapsDirty_status (skDebug : Bool) (context : Option GrDirectContext)
    (reason : String) (t : GrTexture) :
    (t.markMipmapsDirty skDebug context reason).fMipmapStatus
      = if t.fMipmapStatus = GrMipmapStatus.kValid then GrMipmapStatus.kDirty
        else t.fMipmapStatus := by
  unfold GrTexture.markMipmapsDirty
  by_cases h : t.fMipmapStatus = GrMipmapStatus.kValid
  · cases skDebug <;> cases context <;> simp [h]
  · have h1 : ¬ GrMipmapStatus.kValid = t.fMipmapStatus := fun e => h e.symm
    simp [h, h1]

theorem markMipmapsDirty_of_not_valid (skDebug : Bool) (context : Option GrDirectContext)
    (reason : String) (t : GrTexture) (h : t.fMipmapStatus ≠ GrMipmapStatus.kValid) :
    t.markMipmapsDirty skDebug context reason = t := by
  have h1 : ¬ GrMipmapStatus.kValid = t.fMipmapStatus := fun e => h e.symm
  simp [GrTexture.markMipmapsDirty, h1]

theorem markMipmapsClean_some (skDebug : Bool) (t t1 : GrTexture)
    (h : t.markMipmapsClean skDebug = some t1) :
    t1.fMipmapStatus = GrMipmapStatus.kValid
    ∧ (skDebug = true → t.fMipmapStatus ≠ GrMipmapStatus.kNotAllocated) := by
  unfold GrTexture.markMipmapsClean at h
  split at h
  · exact absurd h (by simp)
  · rename_i hc
    simp only [Option.some.injEq] at h
    subst h
    refine ⟨rfl, ?_⟩
    intro hd hs
    apply hc
    simp [hd, hs]

theorem markMipmapsClean_of_allocated (skDebug : Bool) (t : GrTexture)
    (h : t.fMipmapStatus ≠ GrMipmapStatus.kNotAllocated) :
    ∃ t1 : GrTexture, t.markMipmapsClean skDebug = some t1
      ∧ t1.fMipmapStatus = GrMipmapStatus.kValid := by
  have h1 : GrMipmapStatus.kNotAllocated ≠ t.fMipmapStatus := fun e => h e.symm
  unfold GrTexture.markMipmapsClean
  simp only [h1, ne_eq, not_false_eq_true, decide_True, Bool.not_true, Bool.and_false,
    Bool.false_eq_true, if_false]
  exact ⟨_, rfl, rfl⟩

/-- C6, as amended: for a texture whose status is Valid, markMipmapsDirty(reason) leaves
the status Dirty in both builds and, in the diagnostic build, records the reason; the
flush number and the was-flushing flag are recorded from the drawing manager when the
texture still has a context, and keep their previous values when it has none. -/
theorem markMipmapsDirty_valid (context : Option GrDirectContext) (reason : String)
    (t : GrTexture) (h : t.fMipmapStatus = GrMipmapStatus.kValid) :
    (∀ skDebug : Bool,
      (t.markMipmapsDirty skDebug context reason).fMipmapStatus = GrMipmapStatus.kDirty)
    ∧ (t.markMipmapsDirty true context reason).fMipmapDirtyReason = reason
    ∧ (∀ ctx : GrDirectContext, context = some ctx →
        (t.markMipmapsDirty true context reason).fMipmapDirtyFlushNum
            = ctx.drawingManager.flushNumber
        ∧ (t.markMipmapsDirty true context reason).fMipmapDirtyWasFlushing
            = ctx.drawingManager.isFlushing)
    ∧ (context = none →
        (t.markMipmapsDirty true context reason).fMipmapDirtyFlushNum
            = t.fMipmapDirtyFlushNum
        ∧ (t.markMipmapsDirty true context reason).fMipmapDirtyWasFlushing
            = t.fMipmapDirtyWasFlushing) := by
  refine ⟨?_, ?_, ?_, ?_⟩
  · intro skDebug
    rw [markMipmapsDirty_status, if_pos h]
  · cases context <;> simp [GrTexture.markMipmapsDirty, h]
  · intro ctx hc
    subst hc
    simp [GrTexture.markMipmapsDirty, h]
  · intro hc
    subst hc
    simp [GrTexture.markMipmapsDirty, h]

theorem markMipmapsDirty_valid_witness :
    validTexture.fMipmapStatus = GrMipmapStatus.kValid
    ∧ (∀ skDebug : Bool,
      (validTexture.markMipmapsDirty skDebug (some ⟨⟨7, true⟩⟩) "resize").fMipmapStatus
        = GrMipmapStatus.kDirty)
    ∧ (validTexture.markMipmapsDirty true (some ⟨⟨7, true⟩⟩) "resize").fMipmapDirtyReason
        = "resize"
    ∧ (∀ ctx : GrDirectContext, some (⟨⟨7, true⟩⟩ : GrDirectContext) = some ctx →
        (validTexture.markMipmapsDirty true (some ⟨⟨7, true⟩⟩) "resize").fMipmapDirtyFlushNum
            = ctx.drawingManager.flushNumber
        ∧ (validTexture.markMipmapsDirty true (some ⟨⟨7, true⟩⟩)
            "resize").fMipmapDirtyWasFlushing = ctx.drawingManager.isFlushing)
    ∧ (some (⟨⟨7, true⟩⟩ : GrDirectContext) = none →
        (validTexture.markMipmapsDirty true (some ⟨⟨7, true⟩⟩) "resize").fMipmapDirtyFlushNum
            = validTexture.fMipmapDirtyFlushNum
        ∧ (validTexture.markMipmapsDirty true (some ⟨⟨7, true⟩⟩)
            "resize").fMipmapDirtyWasFlushing = validTexture.fMipmapDirtyWasFlushing) :=
  ⟨rfl, markMipmapsDirty_valid (some ⟨⟨7, true⟩⟩) "resize" validTexture rfl⟩

/-- C6, as stated, fails: with the drawing manager at flush number 7 and flushing, a
Valid texture that has lost its context (getContext() is null) is marked Dirty with
the reason recorded, but its recorded flush number stays 0 and its was-flushing flag
stays false. -/
theorem flush_epoch_not_recorded_without_context :
    ¬ (∀ (dm : GrDrawingManager) (context : Option GrDirectContext) (reason : String)
        (t : GrTexture),
        (∀ ctx : GrDirectContext, context = some ctx → ctx.drawingManager = dm) →
        t.fMipmapStatus = GrMipmapStatus.kValid →
        (t.markMipmapsDirty true context reason).fMipmapStatus = GrMipmapStatus.kDirty
        ∧ (t.markMipmapsDirty true context reason).fMipmapDirtyReason = reason
        ∧ (t.markMipmapsDirty true context reason).fMipmapDirtyFlushNum = dm.flushNumber
        ∧ (t.markMipmapsDirty true context reason).fMipmapDirtyWasFlushing
            = dm.isFlushing) := by
  intro hall
  have h := hall ⟨7, true⟩ none "resize" validTexture (by intro ctx hc; cases hc) rfl
  have h3 : (validTexture.markMipmapsDirty true none "resize").fMipmapDirtyFlushNum = 0 := rfl
  rw [h3] at h
  exact absurd h.2.2.1 (by decide)

/-- C7: markMipmapsDirty is idempotent with the first cause retained: a second call,
with any reason and any context state, returns exactly the texture state the first call
left, in both builds; on a texture that is already Dirty the call changes nothing. -/
theorem markMipmapsDirty_idempotent (skDebug : Bool) (c1 c2 : Option GrDirectContext)
    (r1 r2 : String) (t : GrTexture) :
    (t.markMipmapsDirty skDebug c1 r1).markMipmapsDirty skDebug c2 r2
        = t.markMipmapsDirty skDebug c1 r1
    ∧ (t.fMipmapStatus = GrMipmapStatus.kDirty → t.markMipmapsDirty skDebug c1 r1 = t) := by
  refine ⟨?_, ?_⟩
  · apply markMipmapsDirty_of_not_valid
    rw [markMipmapsDirty_status]
    split
    · decide
    · assumption
  · intro h
    apply markMipmapsDirty_of_not_valid
    rw [h]
    decide

theorem markMipmapsDirty_idempotent_witness :
    (validTexture.markMipmapsDirty true (some ⟨⟨3, false⟩⟩) "resize").fMipmapStatus
        = GrMipmapStatus.kDirty
    ∧ ((validTexture.markMipmapsDirty true (some ⟨⟨3, false⟩⟩) "resize").markMipmapsDirty
          true (some ⟨⟨3, false⟩⟩) "resize").markMipmapsDirty true (some ⟨⟨9, true⟩⟩) "second"
        = validTexture.markMipmapsDirty true (some ⟨⟨3, false⟩⟩) "resize" :=
  ⟨rfl,
    ((markMipmapsDirty_idempotent true (some ⟨⟨9, true⟩⟩) (some ⟨⟨9, true⟩⟩) "second" "second"
        ((validTexture.markMipmapsDirty true (some ⟨⟨3, false⟩⟩) "resize").markMipmapsDirty
          true (some ⟨⟨3, false⟩⟩) "resize")).2
      rfl).trans
      (markMipmapsDirty_idempotent true (some ⟨⟨3, false⟩⟩) (some ⟨⟨3, false⟩⟩)
        "resize" "resize" validTexture).1⟩

/-- C8: markMipmapsClean yields status Valid, in both builds, for every texture whose
status is Dirty or Valid, and its assertion fails if and only if the status is
kNotAllocated. -/
theorem markMipmapsClean_valid_or_violation (t : GrTexture) :
    ((t.fMipmapStatus = GrMipmapStatus.kDirty ∨ t.fMipmapStatus = GrMipmapStatus.kValid) →
      ∀ skDebug : Bool, ∃ t1 : GrTexture, t.markMipmapsClean skDebug = some t1
        ∧ t1.fMipmapStatus = GrMipmapStatus.kValid)
    ∧ (t.markMipmapsClean true = none ↔ t.fMipmapStatus = GrMipmapStatus.kNotAllocated) := by
  refine ⟨?_, ?_⟩
  · intro h skDebug
    apply markMipmapsClean_of_allocated
    rcases h with h | h <;> rw [h] <;> decide
  · constructor
    · intro hn
      by_contra hne
      obtain ⟨t1, h1, _⟩ := markMipmapsClean_of_allocated true t hne
      rw [hn] at h1
      exact absurd h1 (by simp)
    · intro hs
      simp [GrTexture.markMipmapsClean, hs]

theorem markMipmapsClean_valid_or_violation_witness :
    ((validTexture.markMipmapsDirty true none "resize").fMipmapStatus = GrMipmapStatus.kDirty
      ∨ (validTexture.markMipmapsDirty true none "resize").fMipmapStatus
          = GrMipmapStatus.kValid)
    ∧ ∀ skDebug : Bool, ∃ t1 : GrTexture,
        (validTexture.markMipmapsDirty true none "resize").markMipmapsClean skDebug = some t1
        ∧ t1.fMipmapStatus = GrMipmapStatus.kValid :=
  ⟨Or.inl rfl,
    (markMipmapsClean_valid_or_violation (validTexture.markMipmapsDirty true none "resize")).1
      (Or.inl rfl)⟩

theorem apply_unallocated_iff (skDebug : Bool) (op : MipmapOp) (t t1 : GrTexture)
    (hok : skDebug = true ∨ t.fMipmapStatus ≠ GrMipmapStatus.kNotAllocated
      ∨ op ≠ MipmapOp.markClean)
    (h : op.apply skDebug t = some t1) :
    (t1.fMipmapStatus = GrMipmapStatus.kNotAllocated
      ↔ t.fMipmapStatus = GrMipmapStatus.kNotAllocated) := by
  cases op with
  | markDirty context reason =>
    simp only [MipmapOp.apply, Option.some.injEq] at h
    subst h
    rw [markMipmapsDirty_status]
    split
    · rename_i hv
      rw [hv]
      simp
    · rfl
  | markClean =>
    simp only [MipmapOp.apply] at h
    obtain ⟨hv, hd⟩ := markMipmapsClean_some skDebug t t1 h
    have hne : t.fMipmapStatus ≠ GrMipmapStatus.kNotAllocated := by
      rcases hok with hok | hok | hok
      · exact hd hok
      · exact hok
      · exact absurd rfl hok
    rw [hv]
    constructor
    · intro hc
      exact absurd hc (by decide)
    · intro hc
      exact absurd hc hne

theorem apply_status_congr (op : MipmapOp) (ta tb ta1 : GrTexture)
    (hs : ta.fMipmapStatus = tb.fMipmapStatus) (h : op.apply true ta = some ta1)
    (skDebug : Bool) :
    ∃ tb1 : GrTexture, op.apply skDebug tb = some tb1
      ∧ tb1.fMipmapStatus = ta1.fMipmapStatus
      ∧ (tb.fMipmapStatus ≠ GrMipmapStatus.kNotAllocated ∨ op ≠ MipmapOp.markClean) := by
  cases op with
  | markDirty context reason =>
    simp only [MipmapOp.apply, Option.some.injEq] at h
    subst h
    refine ⟨_, rfl, ?_, Or.inr (by simp)⟩
    rw [markMipmapsDirty_status, markMipmapsDirty_status, hs]
  | markClean =>
    simp only [MipmapOp.apply] at h
    obtain ⟨hv, hd⟩ := markMipmapsClean_some true ta ta1 h
    have hne : tb.fMipmapStatus ≠ GrMipmapStatus.kNotAllocated := by
      rw [← hs]
      exact hd rfl
    obtain ⟨tb1, hb, hbv⟩ := markMipmapsClean_of_allocated skDebug tb hne
    exact ⟨tb1, hb, by rw [hbv, hv], Or.inl hne⟩

theorem runOps_unallocated_iff (skDebug : Bool) (ops : List MipmapOp) :
    ∀ ta tb ta1 : GrTexture, ta.fMipmapStatus = tb.fMipmapStatus →
      runOps true ops ta = some ta1 →
      ∃ tb1 : GrTexture, runOps skDebug ops tb = some tb1
        ∧ tb1.fMipmapStatus = ta1.fMipmapStatus
        ∧ (tb1.fMipmapStatus = GrMipmapStatus.kNotAllocated
            ↔ tb.fMipmapStatus = GrMipmapStatus.kNotAllocated) := by
  induction ops with
  | nil =>
    intro ta tb ta1 hs h
    simp only [runOps, Option.some.injEq] at h
    subst h
    exact ⟨tb, rfl, hs.symm, Iff.rfl⟩
  | cons op ops ih =>
    intro ta tb ta1 hs h
    simp only [runOps] at h
    cases hop : op.apply true ta with
    | none =>
      rw [hop] at h
      exact absurd h (by simp)
    | some ta2 =>
      rw [hop] at h
      obtain ⟨tb2, hb2, hs2, hok⟩ := apply_status_congr op ta tb ta2 hs hop skDebug
      obtain ⟨tb1, hrun, hst, hiff⟩ := ih ta2 tb2 ta1 hs2.symm h
      refine ⟨tb1, ?_, hst, ?_⟩
      · simp only [runOps, hb2]
        exact hrun
      · rw [hiff]
        exact apply_unallocated_iff skDebug op tb tb2 (Or.inr hok) hb2

/-- C9: being Unallocated is invariant under the clean/dirty operations. For every
texture and every finite sequence of markMipmapsDirty and markMipmapsClean calls that
completes without a contract violation (the assertions hold along the sequence), the
sequence completes in both builds and the final status is kNotAllocated if and only if
the initial status is kNotAllocated. -/
theorem unallocated_invariant (skDebug : Bool) (ops : List MipmapOp) (t : GrTexture)
    (h : (runOps true ops t).isSome = true) :
    ∃ t1 : GrTexture, runOps skDebug ops t = some t1
      ∧ (t1.fMipmapStatus = GrMipmapStatus.kNotAllocated
          ↔ t.fMipmapStatus = GrMipmapStatus.kNotAllocated) := by
  obtain ⟨ta1, ha⟩ := Option.isSome_iff_exists.mp h
  obtain ⟨tb1, hrun, _, hiff⟩ := runOps_unallocated_iff skDebug ops t t ta1 rfl ha
  exact ⟨tb1, hrun, hiff⟩

theorem unallocated_invariant_witness :
    (runOps true [MipmapOp.markDirty none "resize", MipmapOp.markDirty none "second",
        MipmapOp.markClean, MipmapOp.markDirty (some ⟨⟨7, true⟩⟩) "third"]
      validTexture).isSome = true
    ∧ ∃ t1 : GrTexture,
      runOps false [MipmapOp.markDirty none "resize", MipmapOp.markDirty none "second",
        MipmapOp.markClean, MipmapOp.markDirty (some ⟨⟨7, true⟩⟩) "third"] validTexture
        = some t1
      ∧ (t1.fMipmapStatus = GrMipmapStatus.kNotAllocated
          ↔ validTexture.fMipmapStatus = GrMipmapStatus.kNotAllocated) :=
  ⟨rfl, unallocated_invariant false _ validTexture rfl⟩

/-! ## Stealing the backend texture -/

/-- C10: StealBackendTexture on a texture that has a reference other than the caller's
(unique() is false) returns failure, whatever the backend extraction step would do and
without writing a handle, and leaves the texture and the cache as they were: the unique
key, the scratch key and the cache's resource count are unchanged, also after the
by-value parameter has released its reference. -/
theorem StealBackendTexture_not_unique (skDebug : Bool)
    (onStealBackendTexture : GrTexture → Option StolenHandle) (texture : GrTexture)
    (cache : GrResourceCache) (h : texture.unique = false) :
    ∃ o : StealOutcome,
      StealBackendTexture skDebug onStealBackendTexture texture cache = some o
      ∧ o.result = false ∧ o.stolen = none
      ∧ o.texture = texture ∧ o.cache = cache
      ∧ o.texture.getUniqueKey = texture.getUniqueKey
      ∧ o.texture.getScratchKey = texture.getScratchKey
      ∧ o.cache.getResourceCount = cache.getResourceCount
      ∧ (1 ≤ texture.fRefCnt →
          o.destroyParam.texture.getUniqueKey = texture.getUniqueKey
          ∧ o.destroyParam.texture.getScratchKey = texture.getScratchKey
          ∧ o.destroyParam.cache = cache
          ∧ o.destroyParam.cache.getResourceCount = cache.getResourceCount) := by
  refine ⟨{ result := false, stolen := none, texture := texture, cache := cache
            paramHoldsRef := true }, ?_, rfl, rfl, rfl, rfl, rfl, rfl, rfl, ?_⟩
  · simp [StealBackendTexture, h]
  · intro h1
    have hne : texture.fRefCnt ≠ 1 := by
      simpa [GrTexture.unique] using h
    have h0 : ¬ texture.fRefCnt - 1 = 0 := by omega
    simp [StealOutcome.destroyParam, dropRef, h0, GrTexture.getUniqueKey,
      GrTexture.getScratchKey]

theorem StealBackendTexture_not_unique_witness :
    ({ validTexture with fRefCnt := 2 } : GrTexture).unique = false
    ∧ ∃ o : StealOutcome,
      StealBackendTexture true (fun _ => some ⟨11, 12⟩) { validTexture with fRefCnt := 2 }
          exampleCache = some o
      ∧ o.result = false ∧ o.stolen = none
      ∧ o.texture = { validTexture with fRefCnt := 2 } ∧ o.cache = exampleCache
      ∧ o.texture.getUniqueKey = ({ validTexture with fRefCnt := 2 } : GrTexture).getUniqueKey
      ∧ o.texture.getScratchKey
          = ({ validTexture with fRefCnt := 2 } : GrTexture).getScratchKey
      ∧ o.cache.getResourceCount = exampleCache.getResourceCount
      ∧ (1 ≤ ({ validTexture with fRefCnt := 2 } : GrTexture).fRefCnt →
          o.destroyParam.texture.getUniqueKey
              = ({ validTexture with fRefCnt := 2 } : GrTexture).getUniqueKey
          ∧ o.destroyParam.texture.getScratchKey
              = ({ validTexture with fRefCnt := 2 } : GrTexture).getScratchKey
          ∧ o.destroyParam.cache = exampleCache
          ∧ o.destroyParam.cache.getResourceCount = exampleCache.getResourceCount) :=
  ⟨rfl, StealBackendTexture_not_unique true (fun _ => some ⟨11, 12⟩)
    { validTexture with fRefCnt := 2 } exampleCache rfl⟩

/-- The shape of a steal once the reference is unique and the backend step succeeded:
the keys are gone from the texture, the cache holds the same resources, and each index
lost the texture's entries if the texture held the corresponding key. -/
theorem StealBackendTexture_success_shape (f : GrTexture → Option StolenHandle)
    (texture : GrTexture) (cache : GrResourceCache) (handle : StolenHandle)
    (hu : texture.unique = true) (hf : f texture = some handle) :
    ∃ (t2 : GrTexture) (c2 : GrResourceCache),
      t2.fUniqueKey.isValid = false ∧ t2.fScratchKey.isValid = false
      ∧ t2.fRefCnt = texture.fRefCnt ∧ t2.uniqueID = texture.uniqueID
      ∧ c2.fResources = cache.fResources
      ∧ c2.fUniqueHash
          = (if texture.fUniqueKey.isValid then
              cache.fUniqueHash.filter (fun e => e.2 ≠ texture.uniqueID)
             else cache.fUniqueHash)
      ∧ c2.fScratchMap
          = (if texture.fScratchKey.isValid then
              cache.fScratchMap.filter (fun e => e.2 ≠ texture.uniqueID)
             else cache.fScratchMap)
      ∧ StealBackendTexture false f texture cache
          = some { result := true, stolen := some handle, texture := t2, cache := c2
                   paramHoldsRef := true }
      ∧ StealBackendTexture true f texture cache
          = (if (dropRef t2 c2).2.getResourceCount < cache.getResourceCount then
              some { result := true, stolen := some handle, texture := (dropRef t2 c2).1
                     cache := (dropRef t2 c2).2, paramHoldsRef := false }
             else none) := by
  by_cases h1 : texture.fUniqueKey.isValid = true <;>
    by_cases h2 : texture.fScratchKey.isValid = true
  · refine ⟨(removeScratchKey (removeUniqueKey texture cache).1 (removeUniqueKey texture cache).2).1,
      (removeScratchKey (removeUniqueKey texture cache).1 (removeUniqueKey texture cache).2).2,
      rfl, rfl, rfl, rfl, rfl, ?_, ?_, ?_, ?_⟩
    · simp [removeScratchKey, removeUniqueKey, h1]
    · simp [removeScratchKey, removeUniqueKey, h2]
    · simp [StealBackendTexture, hu, hf, GrTexture.getUniqueKey, GrTexture.getScratchKey, h1,
        h2, removeUniqueKey]
    · simp [StealBackendTexture, hu, hf, GrTexture.getUniqueKey, GrTexture.getScratchKey, h1,
        h2, removeUniqueKey]
  · have h2f : texture.fScratchKey.isValid = false := by simpa using h2
    refine ⟨(removeUniqueKey texture cache).1, (removeUniqueKey texture cache).2,
      rfl, h2f, rfl, rfl, rfl, ?_, ?_, ?_, ?_⟩
    · simp [removeUniqueKey, h1]
    · simp [removeUniqueKey, h2f]
    · simp [StealBackendTexture, hu, hf, GrTexture.getUniqueKey, GrTexture.getScratchKey, h1,
        h2f, removeUniqueKey]
    · simp [StealBackendTexture, hu, hf, GrTexture.getUniqueKey, GrTexture.getScratchKey, h1,
        h2f, removeUniqueKey]
  · have h1f : texture.fUniqueKey.isValid = false := by simpa using h1
    refine ⟨(removeScratchKey texture cache).1, (removeScratchKey texture cache).2,
      h1f, rfl, rfl, rfl, rfl, ?_, ?_, ?_, ?_⟩
    · simp [removeScratchKey, h1f]
    · simp [removeScratchKey, h2]
    · simp [StealBackendTexture, hu, hf, GrTexture.getUniqueKey, GrTexture.getScratchKey, h1f,
        h2]
    · simp [StealBackendTexture, hu, hf, GrTexture.getUniqueKey, GrTexture.getScratchKey, h1f,
        h2]
  · have h1f : texture.fUniqueKey.isValid = false := by simpa using h1
    have h2f : texture.fScratchKey.isValid = false := by simpa using h2
    refine ⟨texture, cache, h1f, h2f, rfl, rfl, rfl, ?_, ?_, ?_, ?_⟩
    · simp [h1f]
    · simp [h2f]
    · simp [StealBackendTexture, hu, hf, GrTexture.getUniqueKey, GrTexture.getScratchKey, h1f,
        h2f]
    · simp [StealBackendTexture, hu, hf, GrTexture.getUniqueKey, GrTexture.getScratchKey, h1f,
        h2f]

theorem dropRef_keeps_keys (t : GrTexture) (c : GrResourceCache) :
    (dropRef t c).1.fUniqueKey = t.fUniqueKey ∧ (dropRef t c).1.fScratchKey = t.fScratchKey
    ∧ (dropRef t c).2.fUniqueHash = c.fUniqueHash
    ∧ (dropRef t c).2.fScratchMap = c.fScratchMap := by
  unfold dropRef
  simp only
  split <;> exact ⟨rfl, rfl, rfl, rfl⟩

theorem dropRef_last (t : GrTexture) (c : GrResourceCache) (h1 : t.fRefCnt = 1)
    (hu : t.fUniqueKey.isValid = false) (hs : t.fScratchKey.isValid = false) :
    (dropRef t c).2.fResources = c.fResources.erase t.uniqueID := by
  simp [dropRef, h1, hu, hs]

theorem dropRef_retained (t : GrTexture) (c : GrResourceCache)
    (h : t.fUniqueKey.isValid = true ∨ t.fScratchKey.isValid = true) :
    (dropRef t c).2 = c := by
  unfold dropRef
  simp only
  rcases h with h | h <;> simp [h]

theorem erase_count (l : List Nat) (a : Nat) (h : a ∈ l) :
    (l.erase a).length + 1 = l.length := by
  rw [List.length_erase_of_mem h]
  have : 0 < l.length := List.length_pos_of_mem h
  omega

theorem StealBackendTexture_result_true (skDebug : Bool) (f : GrTexture → Option StolenHandle)
    (texture : GrTexture) (cache : GrResourceCache) (o : StealOutcome)
    (h : StealBackendTexture skDebug f texture cache = some o) (hr : o.result = true) :
    texture.unique = true ∧ ∃ handle : StolenHandle, f texture = some handle := by
  by_cases hu : texture.unique = true
  · refine ⟨hu, ?_⟩
    cases hf : f texture with
    | some handle => exact ⟨handle, rfl⟩
    | none =>
      simp [StealBackendTexture, hu, hf] at h
      subst h
      simp at hr
  · have hu1 : texture.unique = false := by simpa using hu
    simp [StealBackendTexture, hu1] at h
    subst h
    simp at hr

/-- C11, as amended: StealBackendTexture called with the only reference to a texture
whose backend extraction step fails returns failure and removes no key: no handle is
written, and at the return the texture, its unique key and scratch key, the cache and
its resource count are unchanged. When the by-value parameter then releases the
caller's reference the two keys are still the same; the cache and its resource count
are still the same if one of the keys is valid, while a texture with neither key is
destroyed, so that a cache holding it counts one resource less. Every call that
returns, returns success if and only if the reference is unique and the backend
extraction succeeds, and the call returns whenever the build has no assertions or the
cache holds the texture. -/
theorem StealBackendTexture_backend_failure (skDebug : Bool)
    (f : GrTexture → Option StolenHandle) (texture : GrTexture) (cache : GrResourceCache) :
    (texture.unique = true → f texture = none →
      ∃ o : StealOutcome, StealBackendTexture skDebug f texture cache = some o
        ∧ o.result = false ∧ o.stolen = none ∧ o.texture = texture ∧ o.cache = cache
        ∧ o.texture.getUniqueKey = texture.getUniqueKey
        ∧ o.texture.getScratchKey = texture.getScratchKey
        ∧ o.cache.getResourceCount = cache.getResourceCount
        ∧ o.destroyParam.texture.getUniqueKey = texture.getUniqueKey
        ∧ o.destroyParam.texture.getScratchKey = texture.getScratchKey
        ∧ ((texture.getUniqueKey.isValid = true ∨ texture.getScratchKey.isValid = true) →
            o.destroyParam.cache = cache
            ∧ o.destroyParam.cache.getResourceCount = cache.getResourceCount)
        ∧ (texture.getUniqueKey.isValid = false → texture.getScratchKey.isValid = false →
            o.destroyParam.cache.fResources = cache.fResources.erase texture.uniqueID
            ∧ o.destroyParam.cache.fUniqueHash = cache.fUniqueHash
            ∧ o.destroyParam.cache.fScratchMap = cache.fScratchMap
            ∧ (texture.uniqueID ∈ cache.fResources →
                o.destroyParam.cache.getResourceCount + 1 = cache.getResourceCount)))
    ∧ (∀ o : StealOutcome, StealBackendTexture skDebug f texture cache = some o →
        (o.result = true ↔ (texture.unique = true ∧ (f texture).isSome = true)))
    ∧ ((skDebug = false ∨ texture.uniqueID ∈ cache.fResources) →
        ∃ o : StealOutcome, StealBackendTexture skDebug f texture cache = some o) := by
  refine ⟨?_, ?_, ?_⟩
  · intro hu hf
    refine ⟨{ result := false, stolen := none, texture := texture, cache := cache
              paramHoldsRef := true }, ?_, rfl, rfl, rfl, rfl, rfl, rfl, rfl, ?_, ?_, ?_, ?_⟩
    · simp [StealBackendTexture, hu, hf]
    · simp only [StealOutcome.destroyParam, if_true, GrTexture.getUniqueKey]
      exact (dropRef_keeps_keys texture cache).1
    · simp only [StealOutcome.destroyParam, if_true, GrTexture.getScratchKey]
      exact (dropRef_keeps_keys texture cache).2.1
    · intro hk
      simp only [StealOutcome.destroyParam, if_true]
      rw [dropRef_retained texture cache hk]
      exact ⟨rfl, rfl⟩
    · intro hk1 hk2
      have h1 : texture.fRefCnt = 1 := by simpa [GrTexture.unique] using hu
      simp only [GrTexture.getUniqueKey] at hk1
      simp only [GrTexture.getScratchKey] at hk2
      have hres := dropRef_last texture cache h1 hk1 hk2
      obtain ⟨_, _, hi1, hi2⟩ := dropRef_keeps_keys texture cache
      simp only [StealOutcome.destroyParam, if_true]
      refine ⟨hres, hi1, hi2, ?_⟩
      intro hmem
      unfold GrResourceCache.getResourceCount
      rw [hres]
      exact erase_count cache.fResources texture.uniqueID hmem
  · intro o h
    constructor
    · intro hr
      obtain ⟨hu, handle, hf⟩ := StealBackendTexture_result_true skDebug f texture cache o h hr
      exact ⟨hu, by simp [hf]⟩
    · rintro ⟨hu, hf⟩
      obtain ⟨handle, hf⟩ := Option.isSome_iff_exists.mp hf
      obtain ⟨t2, c2, _, _, _, _, _, _, _, hrel, hdbg⟩ :=
        StealBackendTexture_success_shape f texture cache handle hu hf
      cases skDebug with
      | false =>
        rw [hrel] at h
        simp only [Option.some.injEq] at h
        subst h
        rfl
      | true =>
        rw [hdbg] at h
        split at h
        · simp only [Option.some.injEq] at h
          subst h
          rfl
        · exact absurd h (by simp)
  · intro hok
    by_cases hu : texture.unique = true
    · cases hf : f texture with
      | none => exact ⟨_, by simp [StealBackendTexture, hu, hf]; rfl⟩
      | some handle =>
        obtain ⟨t2, c2, hk1, hk2, hrc, hid, hres, _, _, hrel, hdbg⟩ :=
          StealBackendTexture_success_shape f texture cache handle hu hf
        cases skDebug with
        | false => exact ⟨_, hrel⟩
        | true =>
          have hmem : texture.uniqueID ∈ cache.fResources := by
            rcases hok with h | h
            · exact absurd h (by simp)
            · exact h
          have h1 : t2.fRefCnt = 1 := by
            rw [hrc]
            simpa [GrTexture.unique] using hu
          have hlt : (dropRef t2 c2).2.getResourceCount < cache.getResourceCount := by
            unfold GrResourceCache.getResourceCount
            rw [dropRef_last t2 c2 h1 hk1 hk2, hres, hid]
            have := erase_count cache.fResources texture.uniqueID hmem
            omega
          rw [if_pos hlt] at hdbg
          exact ⟨_, hdbg⟩
    · have hu1 : texture.unique = false := by simpa using hu
      exact ⟨_, by simp [StealBackendTexture, hu1]; rfl⟩

theorem StealBackendTexture_backend_failure_witness :
    (validTexture.unique = true ∧ (fun _ : GrTexture => (none : Option StolenHandle))
        validTexture = none)
    ∧ (∃ o : StealOutcome,
        StealBackendTexture true (fun _ => none) validTexture exampleCache = some o
        ∧ o.result = false ∧ o.stolen = none ∧ o.texture = validTexture
        ∧ o.cache = exampleCache
        ∧ o.texture.getUniqueKey = validTexture.getUniqueKey
        ∧ o.texture.getScratchKey = validTexture.getScratchKey
        ∧ o.cache.getResourceCount = exampleCache.getResourceCount
        ∧ o.destroyParam.texture.getUniqueKey = validTexture.getUniqueKey
        ∧ o.destroyParam.texture.getScratchKey = validTexture.getScratchKey
        ∧ ((validTexture.getUniqueKey.isValid = true
              ∨ validTexture.getScratchKey.isValid = true) →
            o.destroyParam.cache = exampleCache
            ∧ o.destroyParam.cache.getResourceCount = exampleCache.getResourceCount)
        ∧ (validTexture.getUniqueKey.isValid = false →
            validTexture.getScratchKey.isValid = false →
            o.destroyParam.cache.fResources
                = exampleCache.fResources.erase validTexture.uniqueID
            ∧ o.destroyParam.cache.fUniqueHash = exampleCache.fUniqueHash
            ∧ o.destroyParam.cache.fScratchMap = exampleCache.fScratchMap
            ∧ (validTexture.uniqueID ∈ exampleCache.fResources →
                o.destroyParam.cache.getResourceCount + 1
                  = exampleCache.getResourceCount)))
    ∧ (keylessTexture.unique = true ∧ keylessTexture.getUniqueKey.isValid = false
        ∧ keylessTexture.getScratchKey.isValid = false
        ∧ keylessTexture.uniqueID ∈ keylessCache.fResources)
    ∧ (∃ o : StealOutcome,
        StealBackendTexture true (fun _ => none) keylessTexture keylessCache = some o
        ∧ o.result = false ∧ o.stolen = none ∧ o.texture = keylessTexture
        ∧ o.cache = keylessCache
        ∧ o.texture.getUniqueKey = keylessTexture.getUniqueKey
        ∧ o.texture.getScratchKey = keylessTexture.getScratchKey
        ∧ o.cache.getResourceCount = keylessCache.getResourceCount
        ∧ o.destroyParam.texture.getUniqueKey = keylessTexture.getUniqueKey
        ∧ o.destroyParam.texture.getScratchKey = keylessTexture.getScratchKey
        ∧ ((keylessTexture.getUniqueKey.isValid = true
              ∨ keylessTexture.getScratchKey.isValid = true) →
            o.destroyParam.cache = keylessCache
            ∧ o.destroyParam.cache.getResourceCount = keylessCache.getResourceCount)
        ∧ (keylessTexture.getUniqueKey.isValid = false →
            keylessTexture.getScratchKey.isValid = false →
            o.destroyParam.cache.fResources
                = keylessCache.fResources.erase keylessTexture.uniqueID
            ∧ o.destroyParam.cache.fUniqueHash = keylessCache.fUniqueHash
            ∧ o.destroyParam.cache.fScratchMap = keylessCache.fScratchMap
            ∧ (keylessTexture.uniqueID ∈ keylessCache.fResources →
                o.destroyParam.cache.getResourceCount + 1
                  = keylessCache.getResourceCount)))
    ∧ (StealBackendTexture false (fun _ => some ⟨11, 12⟩) validTexture exampleCache
          = some { result := true, stolen := some ⟨11, 12⟩
                   texture := { validTexture with
                                  fUniqueKey := { domain := 0, data := [] }
                                  fScratchKey := { resourceType := 0, data := [] } }
                   cache := { fResources := [1, 3, 5], fUniqueHash := [], fScratchMap := [] }
                   paramHoldsRef := true }
        ∧ (true = true ↔ (validTexture.unique = true
            ∧ ((fun _ : GrTexture => some (⟨11, 12⟩ : StolenHandle)) validTexture).isSome
                = true)))
    ∧ (∃ o : StealOutcome,
        StealBackendTexture true (fun _ => some ⟨11, 12⟩) validTexture exampleCache = some o) :=
  ⟨⟨rfl, rfl⟩,
   (StealBackendTexture_backend_failure true (fun _ => none) validTexture exampleCache).1
      rfl rfl,
   ⟨rfl, rfl, rfl, by decide⟩,
   (StealBackendTexture_backend_failure true (fun _ => none) keylessTexture keylessCache).1
      rfl rfl,
   ⟨by decide,
    (StealBackendTexture_backend_failure false (fun _ => some ⟨11, 12⟩) validTexture
      exampleCache).2.1
      { result := true, stolen := some ⟨11, 12⟩
        texture := { validTexture with
                       fUniqueKey := { domain := 0, data := [] }
                       fScratchKey := { resourceType := 0, data := [] } }
        cache := { fResources := [1, 3, 5], fUniqueHash := [], fScratchMap := [] }
        paramHoldsRef := true } (by decide)⟩,
   (StealBackendTexture_backend_failure true (fun _ => some ⟨11, 12⟩) validTexture
      exampleCache).2.2 (Or.inr (by decide))⟩

/-- C11, as stated, fails: a keyless texture with one reference, held by a cache that
counts three resources, is passed to StealBackendTexture with a backend extraction
step that fails. The call returns failure with the count still three at the return,
but once the by-value parameter has released the caller's reference the texture is
destroyed and the cache counts two resources, in both builds. -/
theorem failed_steal_of_keyless_texture_lowers_count :
    keylessTexture.unique = true
    ∧ keylessTexture.uniqueID ∈ keylessCache.fResources
    ∧ keylessCache.getResourceCount = 3
    ∧ (StealBackendTexture true (fun _ => none) keylessTexture keylessCache).map
        (fun o => (o.result, o.cache.getResourceCount,
          o.destroyParam.cache.getResourceCount)) = some (false, 3, 2)
    ∧ (StealBackendTexture false (fun _ => none) keylessTexture keylessCache).map
        (fun o => (o.result, o.cache.getResourceCount,
          o.destroyParam.cache.getResourceCount)) = some (false, 3, 2)
    ∧ ¬ (∀ o : StealOutcome,
          StealBackendTexture true (fun _ => none) keylessTexture keylessCache = some o →
          o.destroyParam.cache.getResourceCount = keylessCache.getResourceCount) := by
  refine ⟨rfl, by decide, rfl, by decide, by decide, ?_⟩
  intro hall
  have h := hall { result := false, stolen := none, texture := keylessTexture
                   cache := keylessCache, paramHoldsRef := true } (by decide)
  exact absurd h (by decide)

theorem find_unique_after_filter (l : List (UniqueKey × Nat)) (id : Nat) (key : UniqueKey) :
    ((l.filter (fun e => e.2 ≠ id)).find? (fun e => decide (e.1 = key))).map Prod.snd
      ≠ some id := by
  intro h
  cases hfind : (l.filter (fun e => e.2 ≠ id)).find? (fun e => decide (e.1 = key)) with
  | none =>
    rw [hfind] at h
    simp at h
  | some e =>
    rw [hfind] at h
    simp only [Option.map_some', Option.some.injEq] at h
    have hmem := List.mem_of_find?_eq_some hfind
    rw [List.mem_filter] at hmem
    have hne := hmem.2
    simp only [ne_eq, decide_not, Bool.not_eq_true', decide_eq_false_iff_not] at hne
    exact hne h

theorem find_scratch_after_filter (l : List (ScratchKey × Nat)) (id : Nat)
    (key : ScratchKey) :
    id ∉ ((l.filter (fun e => e.2 ≠ id)).filter (fun e => decide (e.1 = key))).map Prod.snd := by
  intro h
  rw [List.mem_map] at h
  obtain ⟨e, he, hid⟩ := h
  rw [List.mem_filter, List.mem_filter] at he
  have hne := he.1.2
  simp only [ne_eq, decide_not, Bool.not_eq_true', decide_eq_false_iff_not] at hne
  exact hne hid

/-- What every successful steal leaves behind, before and after the by-value parameter
releases its reference: a texture without valid keys, and cache indexes that lost the
texture's entries wherever the texture held the corresponding key. -/
theorem StealBackendTexture_success_state (skDebug : Bool)
    (f : GrTexture → Option StolenHandle) (texture : GrTexture) (cache : GrResourceCache)
    (o : StealOutcome) (h : StealBackendTexture skDebug f texture cache = some o)
    (hr : o.result = true) :
    o.texture.fUniqueKey.isValid = false ∧ o.texture.fScratchKey.isValid = false
    ∧ o.destroyParam.texture.fUniqueKey = o.texture.fUniqueKey
    ∧ o.destroyParam.texture.fScratchKey = o.texture.fScratchKey
    ∧ o.destroyParam.cache.fUniqueHash = o.cache.fUniqueHash
    ∧ o.destroyParam.cache.fScratchMap = o.cache.fScratchMap
    ∧ o.cache.fUniqueHash
        = (if texture.fUniqueKey.isValid then
            cache.fUniqueHash.filter (fun e => e.2 ≠ texture.uniqueID)
           else cache.fUniqueHash)
    ∧ o.cache.fScratchMap
        = (if texture.fScratchKey.isValid then
            cache.fScratchMap.filter (fun e => e.2 ≠ texture.uniqueID)
           else cache.fScratchMap) := by
  obtain ⟨hu, handle, hf⟩ := StealBackendTexture_result_true skDebug f texture cache o h hr
  obtain ⟨t2, c2, hk1, hk2, _, _, _, hi1, hi2, hrel, hdbg⟩ :=
    StealBackendTexture_success_shape f texture cache handle hu hf
  have hd : o.destroyParam.texture.fUniqueKey = o.texture.fUniqueKey
      ∧ o.destroyParam.texture.fScratchKey = o.texture.fScratchKey
      ∧ o.destroyParam.cache.fUniqueHash = o.cache.fUniqueHash
      ∧ o.destroyParam.cache.fScratchMap = o.cache.fScratchMap := by
    unfold StealOutcome.destroyParam
    split
    · exact dropRef_keeps_keys o.texture o.cache
    · exact ⟨rfl, rfl, rfl, rfl⟩
  cases skDebug with
  | false =>
    rw [hrel] at h
    simp only [Option.some.injEq] at h
    subst h
    exact ⟨hk1, hk2, hd.1, hd.2.1, hd.2.2.1, hd.2.2.2, hi1, hi2⟩
  | true =>
    rw [hdbg] at h
    split at h
    · simp only [Option.some.injEq] at h
      subst h
      obtain ⟨e1, e2, e3, e4⟩ := dropRef_keeps_keys t2 c2
      refine ⟨?_, ?_, hd.1, hd.2.1, hd.2.2.1, hd.2.2.2, ?_, ?_⟩
      · show (dropRef t2 c2).1.fUniqueKey.isValid = false
        rw [e1]; exact hk1
      · show (dropRef t2 c2).1.fScratchKey.isValid = false
        rw [e2]; exact hk2
      · show (dropRef t2 c2).2.fUniqueHash = _
        rw [e3]; exact hi1
      · show (dropRef t2 c2).2.fScratchMap = _
        rw [e4]; exact hi2
    · exact absurd h (by simp)

/-- C12: whenever StealBackendTexture succeeds, the texture holds neither a valid unique
key nor a valid scratch key, before and after the caller's reference is dropped, and
for each key that was valid before the call no lookup in the cache index, by that key
or any other, resolves to the texture any more. -/
theorem StealBackendTexture_success_removes_keys (skDebug : Bool)
    (f : GrTexture → Option StolenHandle) (texture : GrTexture) (cache : GrResourceCache)
    (o : StealOutcome) (h : StealBackendTexture skDebug f texture cache = some o)
    (hr : o.result = true) :
    o.texture.getUniqueKey.isValid = false ∧ o.texture.getScratchKey.isValid = false
    ∧ o.destroyParam.texture.getUniqueKey.isValid = false
    ∧ o.destroyParam.texture.getScratchKey.isValid = false
    ∧ (texture.getUniqueKey.isValid = true → ∀ key : UniqueKey,
        o.cache.findAndRefUniqueResource key ≠ some texture.uniqueID
        ∧ o.destroyParam.cache.findAndRefUniqueResource key ≠ some texture.uniqueID)
    ∧ (texture.getScratchKey.isValid = true → ∀ key : ScratchKey,
        texture.uniqueID ∉ o.cache.findAndRefScratchResource key
        ∧ texture.uniqueID ∉ o.destroyParam.cache.findAndRefScratchResource key) := by
  obtain ⟨hk1, hk2, hd1, hd2, hd3, hd4, hi1, hi2⟩ :=
    StealBackendTexture_success_state skDebug f texture cache o h hr
  refine ⟨hk1, hk2, ?_, ?_, ?_, ?_⟩
  · simp only [GrTexture.getUniqueKey]
    rw [hd1]; exact hk1
  · simp only [GrTexture.getScratchKey]
    rw [hd2]; exact hk2
  · intro hv key
    simp only [GrTexture.getUniqueKey] at hv
    rw [if_pos hv] at hi1
    unfold GrResourceCache.findAndRefUniqueResource
    rw [hd3, hi1]
    exact ⟨find_unique_after_filter _ _ key, find_unique_after_filter _ _ key⟩
  · intro hv key
    simp only [GrTexture.getScratchKey] at hv
    rw [if_pos hv] at hi2
    unfold GrResourceCache.findAndRefScratchResource
    rw [hd4, hi2]
    exact ⟨find_scratch_after_filter _ _ key, find_scratch_after_filter _ _ key⟩

theorem StealBackendTexture_success_removes_keys_witness :
    (StealBackendTexture true stealingBackend validTexture exampleCache = some exampleStolen
      ∧ exampleStolen.result = true)
    ∧ exampleStolen.texture.getUniqueKey.isValid = false
    ∧ exampleStolen.texture.getScratchKey.isValid = false
    ∧ exampleStolen.destroyParam.texture.getUniqueKey.isValid = false
    ∧ exampleStolen.destroyParam.texture.getScratchKey.isValid = false
    ∧ (validTexture.getUniqueKey.isValid = true → ∀ key : UniqueKey,
        exampleStolen.cache.findAndRefUniqueResource key ≠ some validTexture.uniqueID
        ∧ exampleStolen.destroyParam.cache.findAndRefUniqueResource key
            ≠ some validTexture.uniqueID)
    ∧ (validTexture.getScratchKey.isValid = true → ∀ key : ScratchKey,
        validTexture.uniqueID ∉ exampleStolen.cache.findAndRefScratchResource key
        ∧ validTexture.uniqueID
            ∉ exampleStolen.destroyParam.cache.findAndRefScratchResource key) :=
  ⟨⟨by decide, rfl⟩,
    StealBackendTexture_success_removes_keys true stealingBackend validTexture exampleCache
      exampleStolen (by decide) rfl⟩

/-- C13: whenever StealBackendTexture succeeds in the diagnostic build, the caller's
reference has been dropped and the resource count read then is strictly smaller than
the count read before the keys were removed; and for a texture with one live reference
that the cache holds, whatever keys it had, the steal succeeds in both builds and once
the caller's reference is dropped the count has decreased by exactly 1. -/
theorem StealBackendTexture_success_count (f : GrTexture → Option StolenHandle)
    (texture : GrTexture) (cache : GrResourceCache) :
    (∀ o : StealOutcome, StealBackendTexture true f texture cache = some o →
        o.result = true →
        o.paramHoldsRef = false ∧ o.cache.getResourceCount < cache.getResourceCount)
    ∧ (texture.unique = true → (f texture).isSome = true →
        texture.uniqueID ∈ cache.fResources →
        ∀ skDebug : Bool, ∃ o : StealOutcome,
          StealBackendTexture skDebug f texture cache = some o ∧ o.result = true
          ∧ o.destroyParam.cache.getResourceCount + 1 = cache.getResourceCount
          ∧ o.destroyParam.cache.getResourceCount < cache.getResourceCount) := by
  refine ⟨?_, ?_⟩
  · intro o h hr
    obtain ⟨hu, handle, hf⟩ := StealBackendTexture_result_true true f texture cache o h hr
    obtain ⟨t2, c2, _, _, _, _, _, _, _, _, hdbg⟩ :=
      StealBackendTexture_success_shape f texture cache handle hu hf
    rw [hdbg] at h
    split at h
    · rename_i hlt
      simp only [Option.some.injEq] at h
      subst h
      exact ⟨rfl, hlt⟩
    · exact absurd h (by simp)
  · intro hu hf hmem skDebug
    obtain ⟨handle, hf⟩ := Option.isSome_iff_exists.mp hf
    obtain ⟨t2, c2, hk1, hk2, hrc, hid, hres, _, _, hrel, hdbg⟩ :=
      StealBackendTexture_success_shape f texture cache handle hu hf
    have h1 : t2.fRefCnt = 1 := by
      rw [hrc]
      simpa [GrTexture.unique] using hu
    have hcount : (dropRef t2 c2).2.getResourceCount + 1 = cache.getResourceCount := by
      unfold GrResourceCache.getResourceCount
      rw [dropRef_last t2 c2 h1 hk1 hk2, hres, hid]
      exact erase_count cache.fResources texture.uniqueID hmem
    cases skDebug with
    | false =>
      refine ⟨_, hrel, rfl, ?_, ?_⟩
      · simp only [StealOutcome.destroyParam, if_true]
        exact hcount
      · simp only [StealOutcome.destroyParam, if_true]
        omega
    | true =>
      have hlt : (dropRef t2 c2).2.getResourceCount < cache.getResourceCount := by omega
      rw [if_pos hlt] at hdbg
      refine ⟨_, hdbg, rfl, ?_, ?_⟩
      · simp only [StealOutcome.destroyParam, Bool.false_eq_true, if_false]
        exact hcount
      · simp only [StealOutcome.destroyParam, Bool.false_eq_true, if_false]
        exact hlt

theorem StealBackendTexture_success_count_witness :
    (StealBackendTexture true stealingBackend validTexture exampleCache = some exampleStolen
      ∧ exampleStolen.result = true
      ∧ exampleStolen.paramHoldsRef = false
      ∧ exampleStolen.cache.getResourceCount < exampleCache.getResourceCount)
    ∧ (validTexture.unique = true ∧ (stealingBackend validTexture).isSome = true
      ∧ validTexture.uniqueID ∈ exampleCache.fResources
      ∧ validTexture.getUniqueKey.isValid = true ∧ validTexture.getScratchKey.isValid = true)
    ∧ ∀ skDebug : Bool, ∃ o : StealOutcome,
        StealBackendTexture skDebug stealingBackend validTexture exampleCache = some o
        ∧ o.result = true
        ∧ o.destroyParam.cache.getResourceCount + 1 = exampleCache.getResourceCount
        ∧ o.destroyParam.cache.getResourceCount < exampleCache.getResourceCount :=
  ⟨⟨by decide, rfl,
     (StealBackendTexture_success_count stealingBackend validTexture exampleCache).1
       exampleStolen (by decide) rfl⟩,
   ⟨rfl, rfl, by decide, rfl, rfl⟩,
   (StealBackendTexture_success_count stealingBackend validTexture exampleCache).2
     rfl rfl (by decide)⟩

/-! ## Construction -/

theorem halvings_bounds : ∀ (fuel n : Nat), 1 ≤ n → n ≤ fuel →
    2 ^ halvings fuel n ≤ n ∧ n < 2 ^ (halvings fuel n + 1) := by
  intro fuel
  induction fuel with
  | zero =>
    intro n h1 h2
    omega
  | succ fuel ih =>
    intro n h1 h2
    unfold halvings
    by_cases hn : n < 2
    · rw [if_pos hn]
      simp only [pow_zero, zero_add, pow_one]
      omega
    · rw [if_neg hn]
      obtain ⟨ha, hb⟩ := ih (n / 2) (by omega) (by omega)
      have e1 : 2 ^ (halvings fuel (n / 2) + 1) = 2 * 2 ^ halvings fuel (n / 2) := by
        rw [pow_succ]; omega
      have e2 : 2 ^ (halvings fuel (n / 2) + 1 + 1)
          = 2 * (2 * 2 ^ halvings fuel (n / 2)) := by
        rw [pow_succ, e1]; omega
      rw [e2, e1]
      rw [e1] at hb
      omega

theorem halvings_eq_log2 (n : Nat) (h : 1 ≤ n) : halvings n n = Nat.log2 n := by
  obtain ⟨ha, hb⟩ := halvings_bounds n n h (le_refl n)
  have hn : n ≠ 0 := by omega
  have h1 : Nat.log2 n < halvings n n + 1 := (Nat.log2_lt hn).mpr hb
  have h2 : ¬ Nat.log2 n < halvings n n := by
    intro hlt
    have := (Nat.log2_lt hn).mp hlt
    omega
  omega

theorem halvings_eq_zero_iff (n : Nat) (h : 1 ≤ n) : halvings n n = 0 ↔ n = 1 := by
  obtain ⟨ha, hb⟩ := halvings_bounds n n h (le_refl n)
  constructor
  · intro h0
    rw [h0] at hb
    simp only [zero_add, pow_one] at hb
    omega
  · intro h1
    subst h1
    rfl

theorem construct_fields (skDebug : Bool) (context : GrDirectContext) (dimensions : SkISize)
    (isProtected : GrProtected) (textureType : GrTextureType) (mipmapStatus : GrMipmapStatus)
    (init : GrTextureInit) :
    (GrTexture.construct skDebug context dimensions isProtected textureType mipmapStatus
        init).fMaxMipmapLevel
      = (if mipmapStatus = GrMipmapStatus.kNotAllocated then 0
         else SkMipmap.ComputeLevelCount dimensions.fWidth dimensions.fHeight)
    ∧ (GrTexture.construct skDebug context dimensions isProtected textureType mipmapStatus
        init).fMipmapStatus = mipmapStatus
    ∧ (GrTexture.construct skDebug context dimensions isProtected textureType mipmapStatus
        init).fReadOnly = decide (textureType = GrTextureType.kExternal)
    ∧ (GrTexture.construct skDebug context dimensions isProtected textureType mipmapStatus
        init).fTextureType = textureType
    ∧ (GrTexture.construct skDebug context dimensions isProtected textureType mipmapStatus
        init).fDimensions = dimensions
    ∧ (GrTexture.construct skDebug context dimensions isProtected textureType mipmapStatus
        init).fIsProtected = isProtected := by
  unfold GrTexture.construct GrTexture.setReadOnly GrTexture.width GrTexture.height
  cases skDebug <;> cases mipmapStatus <;>
    by_cases ht : textureType = GrTextureType.kExternal <;> simp [ht]

/-- C14, as amended: for every texture built by the constructor with positive width and
height, the maximum mip level is 0 if and only if the initial status is kNotAllocated
or both width and height are 1. -/
theorem maxMipmapLevel_zero_iff (skDebug : Bool) (context : GrDirectContext) (w h : Int)
    (isProtected : GrProtected) (textureType : GrTextureType) (mipmapStatus : GrMipmapStatus)
    (init : GrTextureInit) (hw : 0 < w) (hh : 0 < h) :
    (GrTexture.construct skDebug context ⟨w, h⟩ isProtected textureType mipmapStatus
        init).fMaxMipmapLevel = 0
      ↔ (mipmapStatus = GrMipmapStatus.kNotAllocated ∨ (w = 1 ∧ h = 1)) := by
  rw [(construct_fields skDebug context ⟨w, h⟩ isProtected textureType mipmapStatus init).1]
  by_cases hs : mipmapStatus = GrMipmapStatus.kNotAllocated
  · simp [hs]
  · rw [if_neg hs]
    simp only [SkMipmap.ComputeLevelCount, hs, false_or]
    have hpos : 1 ≤ (max w h).toNat := by omega
    have hz := halvings_eq_zero_iff (max w h).toNat hpos
    constructor
    · intro h0
      have h1 : halvings (max w h).toNat (max w h).toNat = 0 := by exact_mod_cast h0
      have h2 := hz.mp h1
      omega
    · rintro ⟨h1, h2⟩
      subst h1 h2
      rfl

theorem maxMipmapLevel_zero_iff_witness :
    ((0 : Int) < 1 ∧ (0 : Int) < 1)
    ∧ ((GrTexture.construct true exampleContext ⟨1, 1⟩ GrProtected.kNo GrTextureType.k2D
          GrMipmapStatus.kValid exampleInit).fMaxMipmapLevel = 0
        ↔ (GrMipmapStatus.kValid = GrMipmapStatus.kNotAllocated
            ∨ ((1 : Int) = 1 ∧ (1 : Int) = 1))) :=
  ⟨⟨by decide, by decide⟩,
    maxMipmapLevel_zero_iff true exampleContext 1 1 GrProtected.kNo GrTextureType.k2D
      GrMipmapStatus.kValid exampleInit (by decide) (by decide)⟩

/-- C14, as stated, fails: a 1x1 texture constructed with status kValid has maximum mip
level 0 although its initial status is not kNotAllocated, in both builds. -/
theorem one_by_one_mipmapped_level_is_zero :
    (GrTexture.construct true exampleContext ⟨1, 1⟩ GrProtected.kNo GrTextureType.k2D
        GrMipmapStatus.kValid exampleInit).fMaxMipmapLevel = 0
    ∧ (GrTexture.construct false exampleContext ⟨1, 1⟩ GrProtected.kNo GrTextureType.k2D
        GrMipmapStatus.kValid exampleInit).fMaxMipmapLevel = 0
    ∧ (GrTexture.construct true exampleContext ⟨1, 1⟩ GrProtected.kNo GrTextureType.k2D
        GrMipmapStatus.kValid exampleInit).fMipmapStatus ≠ GrMipmapStatus.kNotAllocated
    ∧ ¬ ((GrTexture.construct true exampleContext ⟨1, 1⟩ GrProtected.kNo GrTextureType.k2D
          GrMipmapStatus.kValid exampleInit).fMaxMipmapLevel = 0
        ↔ GrMipmapStatus.kValid = GrMipmapStatus.kNotAllocated) := by
  refine ⟨by decide, by decide, by decide, by decide⟩

/-- C15: for a texture constructed with positive dimensions and an initial status other
than kNotAllocated, the maximum mip level is floor(log2(max(width, height))), so it
depends only on the larger dimension; 100x50 gives 6, 1x1 gives 0, 2x2 gives 1 and
1024x1024 gives 10; for a texture constructed kNotAllocated it is 0 whatever the
dimensions. -/
theorem maxMipmapLevel_floor_log2 (skDebug : Bool) (context : GrDirectContext)
    (isProtected : GrProtected) (textureType : GrTextureType) (mipmapStatus : GrMipmapStatus)
    (init : GrTextureInit) :
    (mipmapStatus ≠ GrMipmapStatus.kNotAllocated →
      (∀ w h : Int, 0 < w → 0 < h →
        ∃ level : Nat,
          (GrTexture.construct skDebug context ⟨w, h⟩ isProtected textureType mipmapStatus
            init).fMaxMipmapLevel = level
          ∧ level = Nat.log2 (max w h).toNat
          ∧ (2 : Int) ^ level ≤ max w h ∧ max w h < (2 : Int) ^ (level + 1))
      ∧ (∀ w h w1 h1 : Int, 0 < w → 0 < h → 0 < w1 → 0 < h1 → max w h = max w1 h1 →
          (GrTexture.construct skDebug context ⟨w, h⟩ isProtected textureType mipmapStatus
            init).fMaxMipmapLevel
          = (GrTexture.construct skDebug context ⟨w1, h1⟩ isProtected textureType
              mipmapStatus init).fMaxMipmapLevel)
      ∧ (GrTexture.construct skDebug context ⟨100, 50⟩ isProtected textureType mipmapStatus
          init).fMaxMipmapLevel = 6
      ∧ (GrTexture.construct skDebug context ⟨1, 1⟩ isProtected textureType mipmapStatus
          init).fMaxMipmapLevel = 0
      ∧ (GrTexture.construct skDebug context ⟨2, 2⟩ isProtected textureType mipmapStatus
          init).fMaxMipmapLevel = 1
      ∧ (GrTexture.construct skDebug context ⟨1024, 1024⟩ isProtected textureType
          mipmapStatus init).fMaxMipmapLevel = 10)
    ∧ (mipmapStatus = GrMipmapStatus.kNotAllocated → ∀ dimensions : SkISize,
        (GrTexture.construct skDebug context dimensions isProtected textureType mipmapStatus
          init).fMaxMipmapLevel = 0) := by
  have hlevel : ∀ d : SkISize,
      (GrTexture.construct skDebug context d isProtected textureType mipmapStatus
        init).fMaxMipmapLevel
        = (if mipmapStatus = GrMipmapStatus.kNotAllocated then 0
           else SkMipmap.ComputeLevelCount d.fWidth d.fHeight) :=
    fun d => (construct_fields skDebug context d isProtected textureType mipmapStatus init).1
  refine ⟨?_, ?_⟩
  · intro hs
    refine ⟨?_, ?_, ?_, ?_, ?_, ?_⟩
    · intro w h hw hh
      have hpos : 1 ≤ (max w h).toNat := by omega
      obtain ⟨ha, hb⟩ := halvings_bounds (max w h).toNat (max w h).toNat hpos (le_refl _)
      have hcast : (((max w h).toNat : Nat) : Int) = max w h := by omega
      refine ⟨halvings (max w h).toNat (max w h).toNat, ?_,
        halvings_eq_log2 _ hpos, ?_, ?_⟩
      · rw [hlevel, if_neg hs]
        rfl
      · rw [← hcast]
        exact_mod_cast ha
      · rw [← hcast]
        exact_mod_cast hb
    · intro w h w1 h1 _ _ _ _ hmax
      rw [hlevel, hlevel, if_neg hs, if_neg hs]
      simp only [SkMipmap.ComputeLevelCount, hmax]
    · rw [hlevel, if_neg hs]; decide
    · rw [hlevel, if_neg hs]; decide
    · rw [hlevel, if_neg hs]; decide
    · rw [hlevel, if_neg hs]; decide
  · intro hs d
    rw [hlevel, if_pos hs]

theorem maxMipmapLevel_floor_log2_witness :
    GrMipmapStatus.kValid ≠ GrMipmapStatus.kNotAllocated
    ∧ ((0 : Int) < 100 ∧ (0 : Int) < 50)
    ∧ (∃ level : Nat,
        (GrTexture.construct true exampleContext ⟨100, 50⟩ GrProtected.kNo GrTextureType.k2D
          GrMipmapStatus.kValid exampleInit).fMaxMipmapLevel = level
        ∧ level = Nat.log2 (max (100 : Int) 50).toNat
        ∧ (2 : Int) ^ level ≤ max 100 50 ∧ max (100 : Int) 50 < (2 : Int) ^ (level + 1))
    ∧ (GrTexture.construct true exampleContext ⟨100, 50⟩ GrProtected.kNo GrTextureType.k2D
          GrMipmapStatus.kValid exampleInit).fMaxMipmapLevel = 6
    ∧ (GrTexture.construct true exampleContext ⟨100, 50⟩ GrProtected.kNo GrTextureType.k2D
          GrMipmapStatus.kNotAllocated exampleInit).fMaxMipmapLevel = 0 :=
  ⟨by decide, ⟨by decide, by decide⟩,
   ((maxMipmapLevel_floor_log2 true exampleContext GrProtected.kNo GrTextureType.k2D
      GrMipmapStatus.kValid exampleInit).1 (by decide)).1 100 50 (by decide) (by decide),
   ((maxMipmapLevel_floor_log2 true exampleContext GrProtected.kNo GrTextureType.k2D
      GrMipmapStatus.kValid exampleInit).1 (by decide)).2.2.1,
   (maxMipmapLevel_floor_log2 true exampleContext GrProtected.kNo GrTextureType.k2D
      GrMipmapStatus.kNotAllocated exampleInit).2 rfl ⟨100, 50⟩⟩

/-! ## Frame of the clean/dirty operations -/

theorem sameOutsideMipmapState_refl (t : GrTexture) : t.sameOutsideMipmapState t := by
  cases t
  rfl

theorem sameOutsideMipmapState_trans (a b c : GrTexture) (h1 : a.sameOutsideMipmapState b)
    (h2 : b.sameOutsideMipmapState c) : a.sameOutsideMipmapState c := by
  cases a
  cases b
  cases c
  simp only [GrTexture.sameOutsideMipmapState, GrTexture.mk.injEq] at h1 h2 ⊢
  obtain ⟨a1, a2, a3, a4, a5, a6, a7, a8, a9, a10, -, a12, -, -, -, -⟩ := h1
  obtain ⟨b1, b2, b3, b4, b5, b6, b7, b8, b9, b10, -, b12, -, -, -, -⟩ := h2
  exact ⟨b1.trans a1, b2.trans a2, b3.trans a3, b4.trans a4, b5.trans a5, b6.trans a6,
    b7.trans a7, b8.trans a8, b9.trans a9, b10.trans a10, trivial, b12.trans a12,
    trivial, trivial, trivial, trivial⟩

theorem markMipmapsDirty_frame (skDebug : Bool) (context : Option GrDirectContext)
    (reason : String) (t : GrTexture) :
    t.sameOutsideMipmapState (t.markMipmapsDirty skDebug context reason) := by
  unfold GrTexture.markMipmapsDirty
  cases t
  cases skDebug <;> cases context <;> simp only <;> split <;> rfl

theorem markMipmapsClean_frame (skDebug : Bool) (t t1 : GrTexture)
    (h : t.markMipmapsClean skDebug = some t1) : t.sameOutsideMipmapState t1 := by
  unfold GrTexture.markMipmapsClean at h
  split at h
  · exact absurd h (by simp)
  · simp only [Option.some.injEq] at h
    subst h
    cases t
    cases skDebug <;> rfl

theorem runOps_frame (skDebug : Bool) (ops : List MipmapOp) :
    ∀ t t1 : GrTexture, runOps skDebug ops t = some t1 → t.sameOutsideMipmapState t1 := by
  induction ops with
  | nil =>
    intro t t1 h
    simp only [runOps, Option.some.injEq] at h
    subst h
    exact sameOutsideMipmapState_refl t
  | cons op ops ih =>
    intro t t1 h
    simp only [runOps] at h
    cases hop : op.apply skDebug t with
    | none =>
      rw [hop] at h
      exact absurd h (by simp)
    | some t2 =>
      rw [hop] at h
      have hstep : t.sameOutsideMipmapState t2 := by
        cases op with
        | markDirty context reason =>
          simp only [MipmapOp.apply, Option.some.injEq] at hop
          subst hop
          exact markMipmapsDirty_frame skDebug context reason t
        | markClean =>
          exact markMipmapsClean_frame skDebug t t2 hop
      exact sameOutsideMipmapState_trans t t2 t1 hstep (ih t2 t1 h)

/-- C16: a texture built by the constructor with texture type kExternal is read-only
right after construction, for every choice of dimensions, protection and initial
mipmap status and in both builds, and it is still read-only after every sequence of
markMipmapsDirty and markMipmapsClean calls. -/
theorem external_readOnly (skDebug : Bool) (context : GrDirectContext) (dimensions : SkISize)
    (isProtected : GrProtected) (mipmapStatus : GrMipmapStatus) (init : GrTextureInit) :
    (GrTexture.construct skDebug context dimensions isProtected GrTextureType.kExternal
        mipmapStatus init).readOnly = true
    ∧ ∀ (ops : List MipmapOp) (t1 : GrTexture),
        runOps skDebug ops
          (GrTexture.construct skDebug context dimensions isProtected GrTextureType.kExternal
            mipmapStatus init) = some t1 →
        t1.readOnly = true := by
  have h0 : (GrTexture.construct skDebug context dimensions isProtected
      GrTextureType.kExternal mipmapStatus init).fReadOnly = true := by
    rw [(construct_fields skDebug context dimensions isProtected GrTextureType.kExternal
      mipmapStatus init).2.2.1]
    rfl
  refine ⟨h0, ?_⟩
  intro ops t1 h
  have hf := runOps_frame skDebug ops _ t1 h
  have h1 := congrArg GrTexture.fReadOnly hf
  simp only at h1
  unfold GrTexture.readOnly
  rw [h1]
  exact h0

theorem external_readOnly_witness :
    (GrTexture.construct true exampleContext ⟨64, 64⟩ GrProtected.kNo GrTextureType.kExternal
        GrMipmapStatus.kValid exampleInit).readOnly = true
    ∧ (runOps true [MipmapOp.markDirty none "resize", MipmapOp.markClean]
        (GrTexture.construct true exampleContext ⟨64, 64⟩ GrProtected.kNo
          GrTextureType.kExternal GrMipmapStatus.kValid exampleInit)).isSome = true
    ∧ ∀ t1 : GrTexture,
        runOps true [MipmapOp.markDirty none "resize", MipmapOp.markClean]
          (GrTexture.construct true exampleContext ⟨64, 64⟩ GrProtected.kNo
            GrTextureType.kExternal GrMipmapStatus.kValid exampleInit) = some t1 →
        t1.readOnly = true :=
  ⟨(external_readOnly true exampleContext ⟨64, 64⟩ GrProtected.kNo GrMipmapStatus.kValid
      exampleInit).1,
   rfl,
   (external_readOnly true exampleContext ⟨64, 64⟩ GrProtected.kNo GrMipmapStatus.kValid
      exampleInit).2 [MipmapOp.markDirty none "resize", MipmapOp.markClean]⟩

/-- C18: markMipmapsDirty and markMipmapsClean, and every sequence of them, change no
member other than the mipmap status and its diagnostic provenance; the maximum mip
level, texture type, dimensions, protection flag and read-only flag are the same after
the call as before, in both builds. -/
theorem mipmap_ops_frame (skDebug : Bool) (t : GrTexture) :
    (∀ (context : Option GrDirectContext) (reason : String),
        t.sameOutsideMipmapState (t.markMipmapsDirty skDebug context reason)
        ∧ (t.markMipmapsDirty skDebug context reason).fMaxMipmapLevel = t.fMaxMipmapLevel
        ∧ (t.markMipmapsDirty skDebug context reason).fTextureType = t.fTextureType
        ∧ (t.markMipmapsDirty skDebug context reason).fDimensions = t.fDimensions
        ∧ (t.markMipmapsDirty skDebug context reason).fIsProtected = t.fIsProtected
        ∧ (t.markMipmapsDirty skDebug context reason).fReadOnly = t.fReadOnly)
    ∧ (∀ t1 : GrTexture, t.markMipmapsClean skDebug = some t1 →
        t.sameOutsideMipmapState t1
        ∧ t1.fMaxMipmapLevel = t.fMaxMipmapLevel ∧ t1.fTextureType = t.fTextureType
        ∧ t1.fDimensions = t.fDimensions ∧ t1.fIsProtected = t.fIsProtected
        ∧ t1.fReadOnly = t.fReadOnly)
    ∧ (∀ (ops : List MipmapOp) (t1 : GrTexture), runOps skDebug ops t = some t1 →
        t.sameOutsideMipmapState t1
        ∧ t1.fMaxMipmapLevel = t.fMaxMipmapLevel ∧ t1.fTextureType = t.fTextureType
        ∧ t1.fDimensions = t.fDimensions ∧ t1.fIsProtected = t.fIsProtected
        ∧ t1.fReadOnly = t.fReadOnly) := by
  have key : ∀ t1 : GrTexture, t.sameOutsideMipmapState t1 →
      t.sameOutsideMipmapState t1
      ∧ t1.fMaxMipmapLevel = t.fMaxMipmapLevel ∧ t1.fTextureType = t.fTextureType
      ∧ t1.fDimensions = t.fDimensions ∧ t1.fIsProtected = t.fIsProtected
      ∧ t1.fReadOnly = t.fReadOnly := by
    intro t1 hf
    have e1 := congrArg GrTexture.fMaxMipmapLevel hf
    have e2 := congrArg GrTexture.fTextureType hf
    have e3 := congrArg GrTexture.fDimensions hf
    have e4 := congrArg GrTexture.fIsProtected hf
    have e5 := congrArg GrTexture.fReadOnly hf
    exact ⟨hf, e1, e2, e3, e4, e5⟩
  refine ⟨?_, ?_, ?_⟩
  · intro context reason
    exact key _ (markMipmapsDirty_frame skDebug context reason t)
  · intro t1 h
    exact key _ (markMipmapsClean_frame skDebug t t1 h)
  · intro ops t1 h
    exact key _ (runOps_frame skDebug ops t t1 h)

theorem mipmap_ops_frame_witness :
    (validTexture.markMipmapsClean true
        = some { validTexture with fMipmapRegenFailureReason := "did not fail" })
    ∧ (validTexture.sameOutsideMipmapState
          { validTexture with fMipmapRegenFailureReason := "did not fail" }
        ∧ ({ validTexture with fMipmapRegenFailureReason := "did not fail" }
            : GrTexture).fMaxMipmapLevel = validTexture.fMaxMipmapLevel
        ∧ ({ validTexture with fMipmapRegenFailureReason := "did not fail" }
            : GrTexture).fTextureType = validTexture.fTextureType
        ∧ ({ validTexture with fMipmapRegenFailureReason := "did not fail" }
            : GrTexture).fDimensions = validTexture.fDimensions
        ∧ ({ validTexture with fMipmapRegenFailureReason := "did not fail" }
            : GrTexture).fIsProtected = validTexture.fIsProtected
        ∧ ({ validTexture with fMipmapRegenFailureReason := "did not fail" }
            : GrTexture).fReadOnly = validTexture.fReadOnly)
    ∧ (runOps true [MipmapOp.markDirty (some exampleContext) "resize"] validTexture
        = some (validTexture.markMipmapsDirty true (some exampleContext) "resize"))
    ∧ (validTexture.markMipmapsDirty true (some exampleContext) "resize").fMaxMipmapLevel
        = validTexture.fMaxMipmapLevel :=
  ⟨rfl,
   (mipmap_ops_frame true validTexture).2.1 _ rfl,
   rfl,
   ((mipmap_ops_frame true validTexture).2.2 [MipmapOp.markDirty (some exampleContext) "resize"]
      _ rfl).2.1⟩

/-! ## Sample count and renderability of a texture's own key -/

theorem asserts_of_nonempty (d : SkISize) (r : GrRenderable) (s : Int) (m : GrMipmapped)
    (p : GrProtected) (hd : d.isEmpty = false) (hs0 : 1 ≤ s) (hs1 : s < 536870912)
    (hr : s = 1 ∨ r = GrRenderable.kYes) :
    ComputeScratchKey_asserts d r s m p = true := by
  have hs : toU32 s < 536870912 := by unfold toU32; omega
  have hm : m.toU32 ≤ 1 := by cases m <;> simp [GrMipmapped.toU32]
  have hp : p.toU32 ≤ 1 := by cases p <;> simp [GrProtected.toU32]
  have hr1 : r.toU32 ≤ 1 := by cases r <;> simp [GrRenderable.toU32]
  have hr2 : 1 = s ∨ r = GrRenderable.kYes := by
    rcases hr with h | h
    · exact Or.inl h.symm
    · exact Or.inr h
  have hs2 : 0 < s := by omega
  simp [ComputeScratchKey_asserts, hd, hs2, hs, hm, hp, hr1, hr2]

theorem ComputeScratchKey_packed_of_asserts (skDebug : Bool) (kType : Nat) (caps : GrCaps)
    (f : GrBackendFormat) (d : SkISize) (r : GrRenderable) (s : Int) (m : GrMipmapped)
    (p : GrProtected) (k : ScratchKey) (hd : d.isEmpty = false) (hs0 : 1 ≤ s)
    (hs1 : s < 536870912) (hr : s = 1 ∨ r = GrRenderable.kYes) :
    ∃ w0 w1 w2 w3 : Nat,
      ComputeScratchKey skDebug kType caps f d r s m p k
        = some { resourceType := kType
                 data := [w0, w1, w2, w3,
                   m.toU32 + 2 * p.toU32 + 4 * r.toU32 + 8 * s.toNat] } := by
  have ha := asserts_of_nonempty d r s m p hd hs0 hs1 hr
  unfold ComputeScratchKey
  simp only [ha, Bool.not_true, Bool.and_false, Bool.false_eq_true, if_false]
  rw [packed_word_eq m p r s (by omega) hs1]
  exact ⟨_, _, _, _, rfl⟩

/-- C17: for a texture with non-empty dimensions whose format is not compressed and
whose render target, if it is one, has a sample count in [1, 2^29), computeScratchKey
passes sample count 1 with renderable = no for a plain texture and the render target's
sample count with renderable = yes otherwise; the sample count passed is at least 1
and exceeds 1 only with renderable = yes, every assertion of ComputeScratchKey holds,
a key is returned in both builds, and in that key word4 >> 3 is the sample count, at
least 1, and exceeds 1 only if bit 2 of word4 is set. -/
theorem computeScratchKey_sample_count (skDebug : Bool) (kType : Nat) (caps : GrCaps)
    (t : GrTexture) (key : ScratchKey)
    (hc : caps.isFormatCompressed t.backendFormat = false)
    (hd : t.fDimensions.isEmpty = false)
    (hrt : ∀ rt : GrRenderTarget, t.asRenderTarget = some rt →
      1 ≤ rt.numSamples ∧ rt.numSamples < 536870912) :
    ∃ (renderable : GrRenderable) (sampleCnt : Int) (w0 w1 w2 w3 w4 : Nat),
      (t.asRenderTarget = none → renderable = GrRenderable.kNo ∧ sampleCnt = 1)
      ∧ (∀ rt : GrRenderTarget, t.asRenderTarget = some rt →
          renderable = GrRenderable.kYes ∧ sampleCnt = rt.numSamples)
      ∧ t.computeScratchKey skDebug kType caps key
          = ComputeScratchKey skDebug kType caps t.backendFormat t.fDimensions renderable
              sampleCnt t.mipmapped t.fIsProtected key
      ∧ ComputeScratchKey_asserts t.fDimensions renderable sampleCnt t.mipmapped
          t.fIsProtected = true
      ∧ 1 ≤ sampleCnt ∧ (1 < sampleCnt → renderable = GrRenderable.kYes)
      ∧ t.computeScratchKey skDebug kType caps key
          = some { resourceType := kType, data := [w0, w1, w2, w3, w4] }
      ∧ ((w4 >>> 3 : Nat) : Int) = sampleCnt
      ∧ 1 ≤ w4 >>> 3
      ∧ (1 < w4 >>> 3 → w4.testBit 2 = true) := by
  have hp : (if t.isProtected = true then GrProtected.kYes else GrProtected.kNo)
      = t.fIsProtected := by
    unfold GrTexture.isProtected
    cases t.fIsProtected <;> simp
  have hm : t.mipmapped.toU32 ≤ 1 := by cases t.mipmapped <;> simp [GrMipmapped.toU32]
  have hpp : t.fIsProtected.toU32 ≤ 1 := by cases t.fIsProtected <;> simp [GrProtected.toU32]
  cases hcase : t.asRenderTarget with
  | none =>
    have he : t.computeScratchKey skDebug kType caps key
        = ComputeScratchKey skDebug kType caps t.backendFormat t.fDimensions
            GrRenderable.kNo 1 t.mipmapped t.fIsProtected key := by
      simp only [GrTexture.computeScratchKey, hc, hcase, hp, GrTexture.dimensions]
      rfl
    obtain ⟨w0, w1, w2, w3, hk⟩ := ComputeScratchKey_packed_of_asserts skDebug kType caps
      t.backendFormat t.fDimensions GrRenderable.kNo 1 t.mipmapped t.fIsProtected key hd
      (by decide) (by decide) (Or.inl rfl)
    refine ⟨GrRenderable.kNo, 1, w0, w1, w2, w3, _, fun _ => ⟨rfl, rfl⟩, ?_, he,
      asserts_of_nonempty _ _ _ _ _ hd (by decide) (by decide) (Or.inl rfl),
      by decide, ?_, he.trans hk, ?_, ?_, ?_⟩
    · intro rt h
      exact absurd h (by simp)
    · intro h
      exact absurd h (by decide)
    · rw [Nat.shiftRight_eq_div_pow]
      simp only [GrRenderable.toU32]
      omega
    · rw [Nat.shiftRight_eq_div_pow]
      simp only [GrRenderable.toU32]
      omega
    · rw [Nat.shiftRight_eq_div_pow]
      simp only [GrRenderable.toU32]
      intro h
      omega
  | some rt =>
    obtain ⟨hs0, hs1⟩ := hrt rt hcase
    simp only [GrRenderTarget.numSamples] at hs0 hs1
    have he : t.computeScratchKey skDebug kType caps key
        = ComputeScratchKey skDebug kType caps t.backendFormat t.fDimensions
            GrRenderable.kYes rt.fSampleCnt t.mipmapped t.fIsProtected key := by
      simp only [GrTexture.computeScratchKey, hc, hcase, hp, GrTexture.dimensions,
        GrRenderTarget.numSamples]
      rfl
    obtain ⟨w0, w1, w2, w3, hk⟩ := ComputeScratchKey_packed_of_asserts skDebug kType caps
      t.backendFormat t.fDimensions GrRenderable.kYes rt.fSampleCnt t.mipmapped
      t.fIsProtected key hd hs0 hs1 (Or.inr rfl)
    refine ⟨GrRenderable.kYes, rt.fSampleCnt, w0, w1, w2, w3, _, ?_, ?_, he,
      asserts_of_nonempty _ _ _ _ _ hd hs0 hs1 (Or.inr rfl),
      hs0, fun _ => rfl, he.trans hk, ?_, ?_, ?_⟩
    · intro h
      exact absurd h (by simp)
    · intro rt1 h
      simp only [Option.some.injEq] at h
      subst h
      exact ⟨rfl, rfl⟩
    · rw [Nat.shiftRight_eq_div_pow]
      simp only [GrRenderable.toU32]
      omega
    · rw [Nat.shiftRight_eq_div_pow]
      simp only [GrRenderable.toU32]
      omega
    · intro _
      rw [Nat.testBit_to_div_mod]
      simp only [GrRenderable.toU32]
      simp
      omega

theorem computeScratchKey_sample_count_witness :
    (plainCaps.isFormatCompressed renderTargetTexture.backendFormat = false
      ∧ renderTargetTexture.fDimensions.isEmpty = false
      ∧ (∀ rt : GrRenderTarget, renderTargetTexture.asRenderTarget = some rt →
          1 ≤ rt.numSamples ∧ rt.numSamples < 536870912))
    ∧ ∃ (renderable : GrRenderable) (sampleCnt : Int) (w0 w1 w2 w3 w4 : Nat),
      (renderTargetTexture.asRenderTarget = none →
        renderable = GrRenderable.kNo ∧ sampleCnt = 1)
      ∧ (∀ rt : GrRenderTarget, renderTargetTexture.asRenderTarget = some rt →
          renderable = GrRenderable.kYes ∧ sampleCnt = rt.numSamples)
      ∧ renderTargetTexture.computeScratchKey true 7 plainCaps ⟨0, []⟩
          = ComputeScratchKey true 7 plainCaps renderTargetTexture.backendFormat
              renderTargetTexture.fDimensions renderable sampleCnt
              renderTargetTexture.mipmapped renderTargetTexture.fIsProtected ⟨0, []⟩
      ∧ ComputeScratchKey_asserts renderTargetTexture.fDimensions renderable sampleCnt
          renderTargetTexture.mipmapped renderTargetTexture.fIsProtected = true
      ∧ 1 ≤ sampleCnt ∧ (1 < sampleCnt → renderable = GrRenderable.kYes)
      ∧ renderTargetTexture.computeScratchKey true 7 plainCaps ⟨0, []⟩
          = some { resourceType := 7, data := [w0, w1, w2, w3, w4] }
      ∧ ((w4 >>> 3 : Nat) : Int) = sampleCnt
      ∧ 1 ≤ w4 >>> 3
      ∧ (1 < w4 >>> 3 → w4.testBit 2 = true) :=
  ⟨⟨rfl, rfl, by
      intro rt h
      have h4 : rt = ⟨4⟩ := by
        simpa [renderTargetTexture] using h.symm
      subst h4
      decide⟩,
    computeScratchKey_sample_count true 7 plainCaps renderTargetTexture ⟨0, []⟩ rfl rfl (by
      intro rt h
      have h4 : rt = ⟨4⟩ := by
        simpa [renderTargetTexture] using h.symm
      subst h4
      decide)⟩

/-! ## The two builds -/

/-- C19, as amended: away from markMipmapsClean on a kNotAllocated texture, both builds
complete the operation from equal statuses with equal statuses, each changing nothing
outside the mipmap state, and the performance build changes the status only; on a
kNotAllocated texture markMipmapsClean aborts on its assertion in the diagnostic build
and yields kValid in the performance build. -/
theorem status_table_both_builds (op : MipmapOp) (ta tb : GrTexture)
    (hs : ta.fMipmapStatus = tb.fMipmapStatus) :
    ((ta.fMipmapStatus ≠ GrMipmapStatus.kNotAllocated ∨ op ≠ MipmapOp.markClean) →
      ∃ ta1 tb1 : GrTexture, op.apply true ta = some ta1 ∧ op.apply false tb = some tb1
        ∧ ta1.fMipmapStatus = tb1.fMipmapStatus
        ∧ ta.sameOutsideMipmapState ta1
        ∧ tb1 = { tb with fMipmapStatus := tb1.fMipmapStatus })
    ∧ (ta.fMipmapStatus = GrMipmapStatus.kNotAllocated →
        MipmapOp.markClean.apply true ta = none
        ∧ MipmapOp.markClean.apply false tb
            = some { tb with fMipmapStatus := GrMipmapStatus.kValid }) := by
  refine ⟨?_, ?_⟩
  · intro hok
    cases op with
    | markDirty context reason =>
      refine ⟨_, _, rfl, rfl, ?_, markMipmapsDirty_frame true context reason ta, ?_⟩
      · rw [markMipmapsDirty_status, markMipmapsDirty_status, hs]
      · unfold GrTexture.markMipmapsDirty
        simp only [Bool.false_eq_true, if_false]
        split <;> rfl
    | markClean =>
      have hne : ta.fMipmapStatus ≠ GrMipmapStatus.kNotAllocated := by
        rcases hok with h | h
        · exact h
        · exact absurd rfl h
      obtain ⟨ta1, ha, hav⟩ := markMipmapsClean_of_allocated true ta hne
      refine ⟨ta1, { tb with fMipmapStatus := GrMipmapStatus.kValid }, ha, ?_, hav,
        markMipmapsClean_frame true ta ta1 ha, rfl⟩
      simp [MipmapOp.apply, GrTexture.markMipmapsClean]
  · intro hna
    refine ⟨?_, ?_⟩
    · simp [MipmapOp.apply, GrTexture.markMipmapsClean, hna]
    · simp [MipmapOp.apply, GrTexture.markMipmapsClean]

theorem status_table_both_builds_witness :
    (validTexture.fMipmapStatus = validTexture.fMipmapStatus)
    ∧ (validTexture.fMipmapStatus ≠ GrMipmapStatus.kNotAllocated
        ∨ MipmapOp.markDirty none "resize" ≠ MipmapOp.markClean)
    ∧ (∃ ta1 tb1 : GrTexture,
        (MipmapOp.markDirty none "resize").apply true validTexture = some ta1
        ∧ (MipmapOp.markDirty none "resize").apply false validTexture = some tb1
        ∧ ta1.fMipmapStatus = tb1.fMipmapStatus
        ∧ validTexture.sameOutsideMipmapState ta1
        ∧ tb1 = { validTexture with fMipmapStatus := tb1.fMipmapStatus })
    ∧ (unallocatedTexture.fMipmapStatus = GrMipmapStatus.kNotAllocated
        ∧ MipmapOp.markClean.apply true unallocatedTexture = none
        ∧ MipmapOp.markClean.apply false unallocatedTexture
            = some { unallocatedTexture with fMipmapStatus := GrMipmapStatus.kValid }) :=
  ⟨rfl, Or.inl (by decide),
   (status_table_both_builds (MipmapOp.markDirty none "resize") validTexture validTexture
      rfl).1 (Or.inl (by decide)),
   rfl,
   (status_table_both_builds MipmapOp.markClean unallocatedTexture unallocatedTexture
      rfl).2 rfl⟩

/-- C19, as stated, fails: on a kNotAllocated texture markMipmapsClean has no status
after it in the build with SK_DEBUG, where the assertion aborts, and leaves kValid in
the build without it. -/
theorem clean_on_unallocated_differs_between_builds :
    unallocatedTexture.fMipmapStatus = GrMipmapStatus.kNotAllocated
    ∧ (MipmapOp.markClean.apply true unallocatedTexture).map GrTexture.fMipmapStatus = none
    ∧ (MipmapOp.markClean.apply false unallocatedTexture).map GrTexture.fMipmapStatus
        = some GrMipmapStatus.kValid
    ∧ (MipmapOp.markClean.apply true unallocatedTexture).map GrTexture.fMipmapStatus
        ≠ (MipmapOp.markClean.apply false unallocatedTexture).map GrTexture.fMipmapStatus := by
  refine ⟨rfl, by decide, by decide, by decide⟩

/-! ## The dirty-mipmap check -/

theorem assertMipmapsNotDirty_of_not_dirty (context : Option GrDirectContext)
    (gl : Option GLTextureInfo) (proxy : Option GrTextureProxy) (t : GrTexture)
    (h : t.fMipmapStatus ≠ GrMipmapStatus.kDirty) :
    t.assertMipmapsNotDirty context gl proxy = Except.ok () := by
  unfold GrTexture.assertMipmapsNotDirty GrTexture.mipmapped GrTexture.mipmapsAreDirty
  cases hs : t.fMipmapStatus with
  | kNotAllocated => simp
  | kDirty => exact absurd hs h
  | kValid => simp

theorem assertMipmapsNotDirty_of_dirty (context : Option GrDirectContext)
    (gl : Option GLTextureInfo) (proxy : Option GrTextureProxy) (t : GrTexture)
    (h : t.fMipmapStatus = GrMipmapStatus.kDirty) :
    ∃ msg : AbortMessage, t.assertMipmapsNotDirty context gl proxy = Except.error msg
      ∧ msg.head = "MM dirty unexpectedly."
      ∧ (msg.contextPart.isSome = context.isSome)
      ∧ (msg.proxyPart.isSome = proxy.isSome) := by
  unfold GrTexture.assertMipmapsNotDirty GrTexture.mipmapped GrTexture.mipmapsAreDirty
  simp only [h]
  refine ⟨_, rfl, rfl, ?_, ?_⟩
  · cases context <;> rfl
  · cases proxy <;> rfl

/-- C20: assertMipmapsNotDirty aborts if and only if the texture is mipmapped and its
mipmaps are dirty, that is if and only if the status is kDirty, whether or not a
context, a proxy or GL information is available: it returns on a kNotAllocated
texture, returns right after a markMipmapsClean that completed, and aborts right after
markMipmapsDirty on a kValid texture. -/
theorem assertMipmapsNotDirty_aborts_iff (context : Option GrDirectContext)
    (gl : Option GLTextureInfo) (proxy : Option GrTextureProxy) (t : GrTexture) :
    ((∃ msg : AbortMessage, t.assertMipmapsNotDirty context gl proxy = Except.error msg)
      ↔ (t.mipmapped = GrMipmapped.kYes ∧ t.mipmapsAreDirty = true))
    ∧ ((∃ msg : AbortMessage, t.assertMipmapsNotDirty context gl proxy = Except.error msg)
      ↔ t.fMipmapStatus = GrMipmapStatus.kDirty)
    ∧ (t.assertMipmapsNotDirty context gl proxy = Except.ok ()
      ↔ t.fMipmapStatus ≠ GrMipmapStatus.kDirty)
    ∧ (t.fMipmapStatus = GrMipmapStatus.kNotAllocated →
        t.assertMipmapsNotDirty context gl proxy = Except.ok ())
    ∧ (∀ t1 : GrTexture, t.markMipmapsClean true = some t1 →
        t1.assertMipmapsNotDirty context gl proxy = Except.ok ())
    ∧ (t.fMipmapStatus = GrMipmapStatus.kValid →
        ∀ (dirtyContext : Option GrDirectContext) (reason : String),
          ∃ msg : AbortMessage,
            (t.markMipmapsDirty true dirtyContext reason).assertMipmapsNotDirty context gl
              proxy = Except.error msg) := by
  have hiff : (∃ msg : AbortMessage,
      t.assertMipmapsNotDirty context gl proxy = Except.error msg)
      ↔ t.fMipmapStatus = GrMipmapStatus.kDirty := by
    constructor
    · rintro ⟨msg, hm⟩
      by_contra hne
      rw [assertMipmapsNotDirty_of_not_dirty context gl proxy t hne] at hm
      exact absurd hm (by simp)
    · intro hd
      obtain ⟨msg, hm, _⟩ := assertMipmapsNotDirty_of_dirty context gl proxy t hd
      exact ⟨msg, hm⟩
  have hcond : (t.mipmapped = GrMipmapped.kYes ∧ t.mipmapsAreDirty = true)
      ↔ t.fMipmapStatus = GrMipmapStatus.kDirty := by
    unfold GrTexture.mipmapped GrTexture.mipmapsAreDirty
    cases t.fMipmapStatus <;> simp
  refine ⟨hiff.trans hcond.symm, hiff, ?_, ?_, ?_, ?_⟩
  · constructor
    · intro hok hd
      obtain ⟨msg, hm, _⟩ := assertMipmapsNotDirty_of_dirty context gl proxy t hd
      rw [hok] at hm
      exact absurd hm (by simp)
    · exact assertMipmapsNotDirty_of_not_dirty context gl proxy t
  · intro hs
    apply assertMipmapsNotDirty_of_not_dirty
    rw [hs]
    decide
  · intro t1 h1
    apply assertMipmapsNotDirty_of_not_dirty
    rw [(markMipmapsClean_some true t t1 h1).1]
    decide
  · intro hv dirtyContext reason
    have hd : (t.markMipmapsDirty true dirtyContext reason).fMipmapStatus
        = GrMipmapStatus.kDirty := by
      rw [markMipmapsDirty_status, if_pos hv]
    obtain ⟨msg, hm, _⟩ := assertMipmapsNotDirty_of_dirty context gl proxy _ hd
    exact ⟨msg, hm⟩

theorem assertMipmapsNotDirty_aborts_iff_witness :
    (unallocatedTexture.fMipmapStatus = GrMipmapStatus.kNotAllocated
      ∧ unallocatedTexture.assertMipmapsNotDirty none none none = Except.ok ())
    ∧ (validTexture.markMipmapsClean true
          = some { validTexture with fMipmapRegenFailureReason := "did not fail" }
      ∧ ({ validTexture with fMipmapRegenFailureReason := "did not fail" }
          : GrTexture).assertMipmapsNotDirty none none none = Except.ok ())
    ∧ (validTexture.fMipmapStatus = GrMipmapStatus.kValid
      ∧ ∀ (dirtyContext : Option GrDirectContext) (reason : String),
          ∃ msg : AbortMessage,
            (validTexture.markMipmapsDirty true dirtyContext reason).assertMipmapsNotDirty
              none none none = Except.error msg) :=
  ⟨⟨rfl, (assertMipmapsNotDirty_aborts_iff none none none unallocatedTexture).2.2.2.1 rfl⟩,
   ⟨rfl, (assertMipmapsNotDirty_aborts_iff none none none validTexture).2.2.2.2.1 _ rfl⟩,
   ⟨rfl, (assertMipmapsNotDirty_aborts_iff none none none validTexture).2.2.2.2.2 rfl⟩⟩

end GrTextureModel
